import Mathlib

attribute [local semireducible] Rat.add Rat.mul Rat.sub Rat.inv

/-!
Verification development for the geometric core of `tdgm.py`: polygon set
algebra (claimed / removed / remainder parts and the algebraic consistency
check), segment intersection, ring augmentation, and global vertex
numbering.

Two embeddings are used, matching the two layers of the program.

* The polygon-algebra layer delegates all geometry to the shapely library
  (`unary_union`, `intersection`, `difference`, `symmetric_difference`,
  `make_valid`, `.area`).  We model a shapely geometry as a finite union of
  unit grid cells, i.e. a `Finset` of cell indices; the library operations
  become the corresponding finite-set operations, `make_valid` is the
  identity (model geometries are always valid), and `.area` is
  proportional to the number of cells.  The control flow of
  `compute_claimed_and_removed` and `algebraic_check` is translated
  statement by statement over this model.

* The intersection/augmentation/numbering layer is pure coordinate
  arithmetic in the source; it is translated directly, with Python floats
  modelled as rationals, `math.hypot(dx, dy) <= tol` modelled by the
  equivalent `dx^2 + dy^2 <= tol^2`, and Python's `round` (round half to
  even) modelled exactly on rationals.
-/

/-- A shapely geometry, modelled as a finite union of unit grid cells on a
line of cells: the finite set of indices of the cells it covers. -/
abbrev Geometry := Finset ℤ

/-- The area of one grid cell.  It is chosen far below the area tolerance
`TOL_AREA` of the program so that nonempty geometries whose area passes the
tolerance test exist in the model. -/
def cellArea : ℚ := 1 / 1000000000

/-- shapely `.area` of a geometry: number of covered cells times the cell
area. -/
def area (g : Geometry) : ℚ := (g.card : ℚ) * cellArea

/-- shapely `make_valid`: the identity on the model, whose geometries are
always valid. -/
def make_valid (g : Geometry) : Geometry := g

/-- shapely `unary_union` of a list of geometries. -/
def unary_union (l : List Geometry) : Geometry := l.foldr (fun a b => a ∪ b) ∅

/-- shapely `g.intersection h`. -/
def intersection (g h : Geometry) : Geometry := g ∩ h

/-- shapely `g.difference h`. -/
def difference (g h : Geometry) : Geometry := g \ h

/-- shapely `g.symmetric_difference h`. -/
def symmetric_difference (g h : Geometry) : Geometry := (g \ h) ∪ (h \ g)

/-- `multipoly_iter` (src/tdgm.py:499): iterates the simple parts of a
possibly multi-part geometry.  In the cell model the simple parts of a
geometry are its individual cells, listed in a deterministic order. -/
def multipoly_iter (g : Geometry) : List Geometry :=
  (g.sort (· ≤ ·)).map (fun c => ({c} : Geometry))

/-- `TOL_AREA` (src/tdgm.py:167): area-equality tolerance `1e-6`. -/
def TOL_AREA : ℚ := 1 / 1000000

/-- The body of the first loop of `compute_claimed_and_removed`
(src/tdgm.py:637-651) for one Initial polygon `g` with 1-based index `i`:
the claimed parts contributed by `g`, each tagged with `i`. -/
def claimedBlock (final_u : Option Geometry) (i : ℕ) (g : Geometry) :
    List (ℕ × Geometry) :=
  match final_u with
  | none => []
  | some fu =>
    let inter := intersection (make_valid g) (make_valid fu)
    if inter = ∅ then []
    else
      ((multipoly_iter (make_valid inter)).filter (fun p => decide (0 < area p))).map
        (fun p => (i, p))

/-- A loop `for i, g in enumerate(initials, k)` whose body appends, for each
`g`, a block of `(i, part)` pairs: the concatenation of the blocks. -/
def blocksFrom (f : ℕ → Geometry → List (ℕ × Geometry)) :
    ℕ → List Geometry → List (ℕ × Geometry)
  | _, [] => []
  | k, g :: rest => f k g ++ blocksFrom f (k + 1) rest

/-- The `claimed_parts` list of `compute_claimed_and_removed`
(src/tdgm.py:635-651): the claimed blocks of all Initial polygons,
enumerated from 1.  When `final_u` is absent every iteration `continue`s,
leaving the list empty. -/
def claimed_parts_of (final_u : Option Geometry) (initials : List Geometry) :
    List (ℕ × Geometry) :=
  blocksFrom (claimedBlock final_u) 1 initials

/-- The `removed_parts` list of `compute_claimed_and_removed`
(src/tdgm.py:653-665). -/
def removed_parts_of (base_u final_u : Option Geometry) : List Geometry :=
  match base_u, final_u with
  | some bu, some fu =>
    let diff := difference (make_valid bu) (make_valid fu)
    if diff = ∅ then []
    else (multipoly_iter (make_valid diff)).filter (fun p => decide (0 < area p))
  | _, _ => []

/-- `claimed_by_initial.get(i, [])` (src/tdgm.py:667-671): the parts of a
tagged list attributed to Initial polygon `i`, in order of appearance. -/
def partsOf (l : List (ℕ × Geometry)) (i : ℕ) : List Geometry :=
  (l.filter (fun q => decide (q.1 = i))).map (fun q => q.2)

/-- The body of the remainder loop of `compute_claimed_and_removed`
(src/tdgm.py:673-695) for one Initial polygon `g` with index `i`: its
remainder parts, tagged with `i`.  `union_d` is absent exactly when `g`
has no claimed parts, in which case a positive-area `g` passes through
unchanged. -/
def remainderBlock (claimed : List (ℕ × Geometry)) (i : ℕ) (g : Geometry) :
    List (ℕ × Geometry) :=
  let cl := partsOf claimed i
  if cl.isEmpty then (if 0 < area g then [(i, g)] else [])
  else
    let diff := difference (make_valid g) (make_valid (unary_union cl))
    if diff = ∅ then []
    else
      ((multipoly_iter (make_valid diff)).filter (fun p => decide (0 < area p))).map
        (fun p => (i, p))

/-- The result tuple of `compute_claimed_and_removed` (src/tdgm.py:697). -/
structure AlgebraResult where
  claimed_parts : List (ℕ × Geometry)
  removed_parts : List Geometry
  initial_minus_d : List (ℕ × Geometry)
  base_u : Option Geometry
  final_u : Option Geometry

/-- `compute_claimed_and_removed` (src/tdgm.py:629-697). -/
def compute_claimed_and_removed (initials bases finals : List Geometry) :
    AlgebraResult :=
  let base_u := if bases.isEmpty then none else some (unary_union bases)
  let final_u := if finals.isEmpty then none else some (unary_union finals)
  let claimed := claimed_parts_of final_u initials
  { claimed_parts := claimed
    removed_parts := removed_parts_of base_u final_u
    initial_minus_d := blocksFrom (remainderBlock claimed) 1 initials
    base_u := base_u
    final_u := final_u }

/-- `algebraic_check` (src/tdgm.py:701-729). -/
def algebraic_check (base_u final_u : Option Geometry)
    (removed_parts : List Geometry) (claimed_parts : List (ℕ × Geometry)) :
    Bool × ℚ :=
  match final_u with
  | none => (false, 0)
  | some fu =>
    let left0 : Option Geometry :=
      match base_u with
      | none => none
      | some bu =>
        some (if removed_parts.isEmpty then make_valid bu
              else difference (make_valid bu) (make_valid (unary_union removed_parts)))
    let left : Option Geometry :=
      if claimed_parts.isEmpty then left0
      else
        let union_claimed := unary_union (claimed_parts.map (fun q => q.2))
        some (match left0 with
              | none => union_claimed
              | some l => make_valid l ∪ make_valid union_claimed)
    match left with
    | none => (false, area fu)
    | some l =>
      let sym := symmetric_difference (make_valid l) (make_valid fu)
      (decide (area sym ≤ TOL_AREA), area sym)

/-- The reconstructed geometry named by the specification of
`algebraic_check`: `base_union` (or nothing) minus the union of
`removed_parts`, then unioned with the union of `claimed_parts`. -/
def reconstructed_spec (base_u : Option Geometry) (removed_parts : List Geometry)
    (claimed_parts : List (ℕ × Geometry)) : Geometry :=
  ((base_u.getD ∅) \ unary_union removed_parts) ∪
    unary_union (claimed_parts.map (fun q => q.2))


-- ======================= coordinate-level model =======================

/-- A 2D point with exact rational coordinates (model of a Python float
pair). -/
abbrev Point := ℚ × ℚ

/-- Default point used with `List.getD`; every access in the translated
code is in bounds, so the default is never read. -/
def pdfl : Point := (0, 0)

/-- Python `round(x)` on a rational: round half to even. -/
def pyRound (x : ℚ) : ℤ :=
  let f := ⌊x⌋
  let r := x - f
  if r < 1 / 2 then f
  else if 1 / 2 < r then f + 1
  else if Even f then f else f + 1

/-- Python `round(x, d)`: round to `d` decimal places, half to even. -/
def roundQ (d : ℕ) (x : ℚ) : ℚ := (pyRound (x * 10 ^ d) : ℚ) / 10 ^ d

/-- Rounding both coordinates of a point, as in
`(round(float(x), decimals), round(float(y), decimals))`. -/
def roundPt (d : ℕ) (p : Point) : Point := (roundQ d p.1, roundQ d p.2)

/-- `_orient` (src/tdgm.py:735-737). -/
def _orient (a b c : Point) : ℚ :=
  (b.1 - a.1) * (c.2 - a.2) - (b.2 - a.2) * (c.1 - a.1)

/-- The square of `math.hypot(p.1 - q.1, p.2 - q.2)`.  Every use of `hypot`
in the source is a comparison `hypot(...) <= tol` with `tol >= 0`, which is
equivalent to `hyp2 ... <= tol ^ 2`. -/
def hyp2 (p q : Point) : ℚ := (p.1 - q.1) ^ 2 + (p.2 - q.2) ^ 2

/-- `_on_segment` (src/tdgm.py:741-759). -/
def _on_segment (a b p : Point) (tol : ℚ) : Bool :=
  if |_orient a b p| > tol then false
  else
    let dot := (p.1 - a.1) * (b.1 - a.1) + (p.2 - a.2) * (b.2 - a.2)
    if dot < -tol then false
    else
      let seg2 := (b.1 - a.1) * (b.1 - a.1) + (b.2 - a.2) * (b.2 - a.2)
      if dot - seg2 > tol then false
      else true

/-- The result of `_seg_intersection`: a single crossing point or an
overlap interval given by its two extreme insertion points. -/
inductive SegInt where
  | point (p : Point)
  | overlap (p q : Point)
deriving DecidableEq

/-- A stable insertion into a sorted list: `x` goes after every `y` with
`le y x`, as Python's stable `sort`/`sorted` places equal keys. -/
def insertLe (le : Point → Point → Bool) (x : Point) : List Point → List Point
  | [] => [x]
  | y :: ys => if le y x then y :: insertLe le x ys else x :: y :: ys

/-- Stable sort by a boolean `le`, modelling Python's stable `sort`. -/
def sortStable (le : Point → Point → Bool) (l : List Point) : List Point :=
  l.foldl (fun acc x => insertLe le x acc) []

/-- The sort key comparison of the overlap branch of `_seg_intersection`
(src/tdgm.py:805): keys `(round(p.x / tol), round(p.y / tol))` compared
lexicographically. -/
def overlapKeyLe (tol : ℚ) (p q : Point) : Bool :=
  decide (pyRound (p.1 / tol) < pyRound (q.1 / tol) ∨
    (pyRound (p.1 / tol) = pyRound (q.1 / tol) ∧ pyRound (p.2 / tol) ≤ pyRound (q.2 / tol)))

/-- The `uniq` deduplication loop of `_seg_intersection`
(src/tdgm.py:795-801): keep a point only when no kept point is within
`tol` of it. -/
def dedupClose (tol : ℚ) (pts : List Point) : List Point :=
  pts.foldl
    (fun uniq p =>
      if uniq.any (fun q => decide (hyp2 p q ≤ tol ^ 2)) then uniq else uniq ++ [p]) []

/-- The determinant of the 2x2 linear system solved by `_seg_intersection`
(src/tdgm.py:769). -/
def segDen (a b c d : Point) : ℚ :=
  (a.1 - b.1) * (c.2 - d.2) - (a.2 - b.2) * (c.1 - d.1)

/-- The first segment parameter `t` solved by `_seg_intersection`
(src/tdgm.py:773). -/
def segT (a b c d : Point) : ℚ :=
  ((a.1 - c.1) * (c.2 - d.2) - (a.2 - c.2) * (c.1 - d.1)) / segDen a b c d

/-- The second segment parameter `u` solved by `_seg_intersection`
(src/tdgm.py:775). -/
def segU (a b c d : Point) : ℚ :=
  ((a.1 - c.1) * (a.2 - b.2) - (a.2 - c.2) * (a.1 - b.1)) / segDen a b c d

/-- `_seg_intersection` (src/tdgm.py:763-813). -/
def _seg_intersection (a b c d : Point) (tol : ℚ) : Option SegInt :=
  if |segDen a b c d| > tol then
    if -tol ≤ segT a b c d ∧ segT a b c d ≤ 1 + tol ∧
        -tol ≤ segU a b c d ∧ segU a b c d ≤ 1 + tol then
      some (SegInt.point
        (a.1 + segT a b c d * (b.1 - a.1), a.2 + segT a b c d * (b.2 - a.2)))
    else none
  else
    if |_orient a b c| ≤ tol ∧ |_orient a b d| ≤ tol then
      let pts := [a, b, c, d].filter
        (fun p => _on_segment a b p tol && _on_segment c d p tol)
      let uniq := dedupClose tol pts
      if 2 ≤ uniq.length then
        let sorted := sortStable (overlapKeyLe tol) uniq
        some (SegInt.overlap (sorted.headD pdfl) (sorted.getLastD pdfl))
      else if uniq.length = 1 then some (SegInt.point (uniq.headD pdfl))
      else none
    else none

/-- The `PolyItem` dataclass (src/tdgm.py:521-539).  A shapely polygon is
modelled by its exterior coordinate ring (a closed list of points), so the
`polygon` field is a list of points. -/
structure PolyItem where
  role : String := ""
  name : String := ""
  polygon : List Point
  ring : List Point := []
  point_ids : List ℕ := []
  from_kaek : String := ""
  to_kaek : String := ""
  characteristic : String := ""
  layers : List String := []
deriving DecidableEq

instance : Inhabited PolyItem := ⟨{ polygon := [] }⟩

/-- `ring_coords` (src/tdgm.py:493-495): `list(poly.exterior.coords)`.  In
the model a polygon is its exterior coordinate ring, so this is the
identity. -/
def ring_coords (poly : List Point) : List Point := poly

/-- shapely geometry repair on a coordinate ring: the identity in the
model (model rings are kept as constructed). -/
def make_valid_coords (poly : List Point) : List Point := poly

/-- Closing a coordinate list by exact equality of first and last entries:
`if r and r[0] != r[-1]: r = r + [r[0]]` (src/tdgm.py:833-835 and 937-939).
An empty list is returned unchanged (the Python code never reaches this
with an empty list for well-formed inputs). -/
def closeRing (r : List Point) : List Point :=
  match r with
  | [] => []
  | x :: _ => if r.getLast? = some x then r else r ++ [x]

/-- `coords_to_polygon` (src/tdgm.py:459-489): `None` for fewer than 4
coordinates, otherwise the closed ring; the `Polygon` construction and
`make_valid` repair are modelled as the identity and never produce an
empty geometry from 4 or more coordinates in the model. -/
def coords_to_polygon (coords : List Point) : Option (List Point) :=
  if coords.length < 4 then none else some (make_valid_coords (closeRing coords))

/-- The pending-insertion table `inserts` of `augment_intersections`
(src/tdgm.py:839): for item index `i` and edge index `e`, the list of
points to insert on that edge, in arrival order.  The Python list of
per-item dictionaries is modelled as one association list keyed by the
pair `(i, e)`; only lookups and single-key updates occur, so the
association order is immaterial. -/
abbrev Inserts := List ((ℕ × ℕ) × List Point)

/-- The initial, empty insertion table. -/
def emptyInserts : Inserts := []

/-- `inserts[i].get(e, [])`. -/
def getIns (ins : Inserts) (i e : ℕ) : List Point :=
  match ins.find? (fun x => decide (x.1 = (i, e))) with
  | some x => x.2
  | none => []

/-- Store the (updated) pending list of edge `e` of item `i`. -/
def setIns : Inserts → ℕ → ℕ → List Point → Inserts
  | [], i, e, l => [((i, e), l)]
  | x :: rest, i, e, l =>
    if x.1 = (i, e) then ((i, e), l) :: rest else x :: setIns rest i e l

/-- `add_ins` (src/tdgm.py:841-851): record `pt` for edge `e` of item `i`
unless a point within `tol` is already recorded for that edge. -/
def add_ins (tol : ℚ) (ins : Inserts) (i e : ℕ) (pt : Point) : Inserts :=
  if (getIns ins i e).any (fun q => decide (hyp2 q pt ≤ tol ^ 2)) then ins
  else setIns ins i e (getIns ins i e ++ [pt])

/-- The body of the edge-pair loop of `augment_intersections`
(src/tdgm.py:871-889): classify the intersection of edge `ei` of item `i`
with edge `ej` of item `j` and record the resulting insertions. -/
def processPair (tol : ℚ) (ins : Inserts) (i ei j ej : ℕ) (ai bi aj bj : Point) :
    Inserts :=
  match _seg_intersection ai bi aj bj tol with
  | none => ins
  | some (SegInt.point p) => add_ins tol (add_ins tol ins i ei p) j ej p
  | some (SegInt.overlap p1 p2) =>
    add_ins tol (add_ins tol (add_ins tol (add_ins tol ins i ei p1) i ei p2) j ej p1)
      j ej p2

/-- The closed rings the augmentation works on (src/tdgm.py:823-837).  The
Python fallback `list(it.polygon.exterior.coords)` coincides with
`ring_coords` in the model, so only the closing step remains. -/
def ringsOf (items : List PolyItem) : List (List Point) :=
  items.map (fun it => closeRing (ring_coords it.polygon))

/-- The edge-pair double loop of `augment_intersections`
(src/tdgm.py:863-889) for one pair of items `i < j`: every edge of ring
`i` against every edge of ring `j`, in the source's iteration order. -/
def pairEdges (rings : List (List Point)) (tol : ℚ) (ins : Inserts) (i j : ℕ) :
    Inserts :=
  let ri := rings.getD i []
  let mi := ri.length - 1
  let rj := rings.getD j []
  let mj := rj.length - 1
  (List.range mi).foldl
    (fun ins ei =>
      (List.range mj).foldl
        (fun ins ej =>
          processPair tol ins i ei j ej (ri.getD ei pdfl)
            (ri.getD ((ei + 1) % mi) pdfl) (rj.getD ej pdfl)
            (rj.getD ((ej + 1) % mj) pdfl))
        ins)
    ins

/-- The full pairwise intersection scan of `augment_intersections`
(src/tdgm.py:853-889): all ordered pairs `i < j`, in the source's
iteration order. -/
def allInserts (items : List PolyItem) (tol : ℚ) : Inserts :=
  let rings := ringsOf items
  let n := items.length
  (List.range n).foldl
    (fun ins i =>
      (List.range n).foldl
        (fun ins j => if i < j then pairEdges rings tol ins i j else ins)
        ins)
    emptyInserts

/-- The comparison used to sort an edge's pending insertions by their
normalized projection parameter along the edge (src/tdgm.py:907-915). -/
def projLe (a b : Point) (denom : ℚ) (p q : Point) : Bool :=
  decide (((p.1 - a.1) * (b.1 - a.1) + (p.2 - a.2) * (b.2 - a.2)) / denom ≤
    ((q.1 - a.1) * (b.1 - a.1) + (q.2 - a.2) * (b.2 - a.2)) / denom)

/-- The filtering loop over one edge's sorted insertion points
(src/tdgm.py:917-931).  `last` is the point most recently appended to the
ring under construction; when the loop starts it is the edge start `a`,
which the source has just appended, so `new_ring` is nonempty there and
its last element is exactly `last`. -/
def filterExtras (tol : ℚ) (a b : Point) : Point → List Point → List Point
  | _, [] => []
  | last, p :: rest =>
    if hyp2 p a ≤ tol ^ 2 then filterExtras tol a b last rest
    else if hyp2 p b ≤ tol ^ 2 then filterExtras tol a b last rest
    else if hyp2 last p ≤ tol ^ 2 then filterExtras tol a b last rest
    else p :: filterExtras tol a b p rest

/-- The insertion points kept for one edge `(a, b)` (src/tdgm.py:903-931):
none when the edge has no pending insertions, otherwise the pending points
sorted by projection parameter (denominator `1e-18` for a zero-length
edge, as in `denom = (...) or 1e-18`) and filtered. -/
def edgeExtras (tol : ℚ) (a b : Point) (extra : List Point) : List Point :=
  if extra.isEmpty then []
  else
    let d0 := (b.1 - a.1) ^ 2 + (b.2 - a.2) ^ 2
    let denom := if d0 = 0 then (1 : ℚ) / 10 ^ 18 else d0
    filterExtras tol a b a (sortStable (projLe a b denom) extra)

/-- The portion of the rebuilt ring contributed by edge `e`
(src/tdgm.py:897-931): the edge start `a` followed by the kept insertion
points. -/
def edgeBlock (tol : ℚ) (ring : List Point) (m : ℕ) (insE : ℕ → List Point) (e : ℕ) :
    List Point :=
  ring.getD e pdfl ::
    edgeExtras tol (ring.getD e pdfl) (ring.getD ((e + 1) % m) pdfl) (insE e)

/-- The ring-reconstruction loop of `augment_intersections`
(src/tdgm.py:893-931): concatenation of the edge blocks. -/
def rebuildCore (tol : ℚ) (ring : List Point) (insE : ℕ → List Point) : List Point :=
  ((List.range (ring.length - 1)).map (edgeBlock tol ring (ring.length - 1) insE)).flatten

/-- The reconstructed (and re-closed) ring of item `idx`
(src/tdgm.py:893-939), including the fallback `new_ring = ring[:]` for an
empty reconstruction. -/
def newRingOf (items : List PolyItem) (tol : ℚ) (idx : ℕ) : List Point :=
  let ring := (ringsOf items).getD idx []
  let ins := allInserts items tol
  let core := rebuildCore tol ring (fun e => getIns ins idx e)
  closeRing (if core.isEmpty then ring else core)

/-- The per-item update of `augment_intersections` (src/tdgm.py:941-949):
when the rebuilt ring yields a polygon, replace the item's polygon and
ring; otherwise only set the item's ring to the rebuilt ring. -/
def augmentItem (items : List PolyItem) (tol : ℚ) (idx : ℕ) (it : PolyItem) :
    PolyItem :=
  match coords_to_polygon (newRingOf items tol idx) with
  | some poly2 =>
    { it with polygon := make_valid_coords poly2
              ring := ring_coords (make_valid_coords poly2) }
  | none => { it with ring := newRingOf items tol idx }

/-- `augment_intersections` (src/tdgm.py:817-949), in value-passing style:
the in-place mutation of the item list becomes returning the updated
list. -/
def augment_intersections (items : List PolyItem) (tol : ℚ) : List PolyItem :=
  if items.isEmpty then items
  else (List.range items.length).map
    (fun idx => augmentItem items tol idx (items.getD idx default))

-- ======================= vertex numbering model =======================

/-- One step of the bucket accumulation of `unique_points_by_decimals`
(src/tdgm.py:955-961): `buckets.setdefault(k, []).append(p)` on an
insertion-ordered map modelled as an association list. -/
def addBucket : List (Point × List Point) → Point → Point → List (Point × List Point)
  | [], k, p => [(k, [p])]
  | (k2, l) :: rest, k, p =>
    if k2 = k then (k2, l ++ [p]) :: rest else (k2, l) :: addBucket rest k p

/-- The `buckets` dictionary of `unique_points_by_decimals`
(src/tdgm.py:955-961): keys in first-seen order, raw points accumulated
per rounded key. -/
def buckets (d : ℕ) (points : List Point) : List (Point × List Point) :=
  points.foldl (fun bs p => addBucket bs (roundPt d p) p) []

/-- The canonical coordinate of one bucket (src/tdgm.py:965-977): the key
itself for a single raw point, otherwise the re-rounded centroid of the
accumulated raw points. -/
def bucketCanonical (d : ℕ) (k : Point) (pts : List Point) : Point :=
  if pts.length = 1 then k
  else
    (roundQ d ((pts.map (fun p => p.1)).sum / pts.length),
     roundQ d ((pts.map (fun p => p.2)).sum / pts.length))

/-- `unique_points_by_decimals` (src/tdgm.py:953-979). -/
def unique_points_by_decimals (points : List Point) (d : ℕ) : List Point :=
  (buckets d points).map (fun b => bucketCanonical d b.1 b.2)

/-- The registry state threaded through `assign_global_vertex_numbers`
(src/tdgm.py:995-999): the key-to-id dictionary (a function, as only
lookups and single-key updates occur), the ordered `id_to_point` table and
the next id `gid`. -/
structure RegState where
  id_map : Point → Option ℕ
  tbl : List Point
  gid : ℕ

/-- Pass 1 of `assign_global_vertex_numbers` (src/tdgm.py:999-1005): each
canonical point, re-rounded, receives the next sequential id and is
appended to `id_to_point`. -/
def pass1 (d : ℕ) : List Point → RegState → RegState
  | [], s => s
  | q :: rest, s =>
    pass1 d rest
      { id_map := fun k => if k = roundPt d q then some s.gid else s.id_map k
        tbl := s.tbl ++ [roundPt d q]
        gid := s.gid + 1 }

/-- The pass-2 lookup `id_map.get(k)` with fallback allocation
(src/tdgm.py:1015-1019): a missing key receives a fresh trailing id. -/
def lookupId (s : RegState) (k : Point) : ℕ × RegState :=
  match s.id_map k with
  | some pid => (pid, s)
  | none =>
    (s.gid,
     { id_map := fun k2 => if k2 = k then some s.gid else s.id_map k2
       tbl := s.tbl ++ [k]
       gid := s.gid + 1 })

/-- Pass 2 over one item's ring vertices (src/tdgm.py:1009-1021): round
each vertex, look its id up and collect the ids in ring order. -/
def assignPts (d : ℕ) (s : RegState) : List Point → List ℕ × RegState
  | [] => ([], s)
  | p :: rest =>
    let r := lookupId s (roundPt d p)
    let rec2 := assignPts d r.2 rest
    (r.1 :: rec2.1, rec2.2)

/-- Pass 2 over the item list (src/tdgm.py:1007-1021): set each item's
`ring` (as the first loop of the source already did) and its `point_ids`. -/
def assignItems (d : ℕ) (s : RegState) : List PolyItem → List PolyItem × RegState
  | [] => ([], s)
  | it :: rest =>
    let ring := ring_coords it.polygon
    let r := assignPts d s ring.dropLast
    let rec2 := assignItems d r.2 rest
    ({ it with ring := ring, point_ids := r.1 } :: rec2.1, rec2.2)

/-- `assign_global_vertex_numbers` (src/tdgm.py:983-1023). -/
def assign_global_vertex_numbers (polys : List PolyItem) (d : ℕ) :
    List PolyItem × List Point :=
  let all_pts := (polys.map (fun p => (ring_coords p.polygon).dropLast)).flatten
  let uniq := unique_points_by_decimals all_pts d
  let s1 := pass1 d uniq { id_map := fun _ => none, tbl := [], gid := 1 }
  let r := assignItems d s1 polys
  (r.1, r.2.tbl)

/-- `SNAP_DECIMALS` (src/tdgm.py:143): rounding precision for vertex
identity. -/
def SNAP_DECIMALS : ℕ := 3

/-- The keys of a scan in first-seen order: the deduplication a Python
dict performs on insertion. -/
def firstSeenKeys (l : List Point) : List Point :=
  l.foldl (fun acc k => if k ∈ acc then acc else acc ++ [k]) []


-- ======================= concrete inputs for re-augmentation =======================

/-- Concrete polygon collection used to settle the re-augmentation claim: a
large triangle whose bottom edge is crossed by three thin triangles at
`x = 50`, `x = 50 + 1.8e-7` and `x = 50 + 1.2e-7`; the last two crossing
points are within the epsilon `1e-7` of each other, so the first
augmentation merges them on the big triangle's edge but not on the thin
triangles' own edges.  The remaining literals below are the intermediate
results of augmenting and numbering this collection twice; each is proved
equal to the corresponding computation. -/
def C9tol : ℚ := 1/10000000

def C9items : List PolyItem :=
 [{ polygon := [((0), (0)), ((100), (0)), ((0), (50)), ((0), (0))],
    ring := [],
    point_ids := [] },
 { polygon := [((50), (-1)), ((50), (1)), ((55), (1)), ((50), (-1))],
    ring := [],
    point_ids := [] },
 { polygon := [((2500000009/50000000), (-1)), ((2500000009/50000000), (1)), ((2750000009/50000000), (1)), ((2500000009/50000000), (-1))],
    ring := [],
    point_ids := [] },
 { polygon := [((1250000003/25000000), (-1)), ((1250000003/25000000), (1)), ((1375000003/25000000), (1)), ((1250000003/25000000), (-1))],
    ring := [],
    point_ids := [] }]

def C9run1 : List PolyItem :=
 [{ polygon := [((0), (0)), ((50), (0)), ((2500000009/50000000), (0)), ((105/2), (0)), ((2625000009/50000000), (0)), ((100), (0)), ((0), (50)), ((0), (0))],
    ring := [((0), (0)), ((50), (0)), ((2500000009/50000000), (0)), ((105/2), (0)), ((2625000009/50000000), (0)), ((100), (0)), ((0), (50)), ((0), (0))],
    point_ids := [] },
 { polygon := [((50), (-1)), ((50), (0)), ((50), (1)), ((2500000009/50000000), (1)), ((2750000009/50000000), (1)), ((55), (1)), ((105/2), (0)), ((2500000009/50000000), (-124999991/125000000)), ((50), (-1))],
    ring := [((50), (-1)), ((50), (0)), ((50), (1)), ((2500000009/50000000), (1)), ((2750000009/50000000), (1)), ((55), (1)), ((105/2), (0)), ((2500000009/50000000), (-124999991/125000000)), ((50), (-1))],
    point_ids := [] },
 { polygon := [((2500000009/50000000), (-1)), ((2500000009/50000000), (0)), ((2500000009/50000000), (1)), ((50), (1)), ((55), (1)), ((2750000009/50000000), (1)), ((2625000009/50000000), (0)), ((50), (-125000009/125000000)), ((2500000009/50000000), (-1))],
    ring := [((2500000009/50000000), (-1)), ((2500000009/50000000), (0)), ((2500000009/50000000), (1)), ((50), (1)), ((55), (1)), ((2750000009/50000000), (1)), ((2625000009/50000000), (0)), ((50), (-125000009/125000000)), ((2500000009/50000000), (-1))],
    point_ids := [] },
 { polygon := [((1250000003/25000000), (-1)), ((1250000003/25000000), (0)), ((1250000003/25000000), (1)), ((50), (1)), ((55), (1)), ((1375000003/25000000), (1)), ((1312500003/25000000), (0)), ((50), (-62500003/62500000)), ((1250000003/25000000), (-1))],
    ring := [((1250000003/25000000), (-1)), ((1250000003/25000000), (0)), ((1250000003/25000000), (1)), ((50), (1)), ((55), (1)), ((1375000003/25000000), (1)), ((1312500003/25000000), (0)), ((50), (-62500003/62500000)), ((1250000003/25000000), (-1))],
    point_ids := [] }]

def C9n1 : List PolyItem :=
 [{ polygon := [((0), (0)), ((50), (0)), ((2500000009/50000000), (0)), ((105/2), (0)), ((2625000009/50000000), (0)), ((100), (0)), ((0), (50)), ((0), (0))],
    ring := [((0), (0)), ((50), (0)), ((2500000009/50000000), (0)), ((105/2), (0)), ((2625000009/50000000), (0)), ((100), (0)), ((0), (50)), ((0), (0))],
    point_ids := [1, 2, 2, 3, 3, 4, 5] },
 { polygon := [((50), (-1)), ((50), (0)), ((50), (1)), ((2500000009/50000000), (1)), ((2750000009/50000000), (1)), ((55), (1)), ((105/2), (0)), ((2500000009/50000000), (-124999991/125000000)), ((50), (-1))],
    ring := [((50), (-1)), ((50), (0)), ((50), (1)), ((2500000009/50000000), (1)), ((2750000009/50000000), (1)), ((55), (1)), ((105/2), (0)), ((2500000009/50000000), (-124999991/125000000)), ((50), (-1))],
    point_ids := [6, 2, 7, 7, 8, 8, 3, 6] },
 { polygon := [((2500000009/50000000), (-1)), ((2500000009/50000000), (0)), ((2500000009/50000000), (1)), ((50), (1)), ((55), (1)), ((2750000009/50000000), (1)), ((2625000009/50000000), (0)), ((50), (-125000009/125000000)), ((2500000009/50000000), (-1))],
    ring := [((2500000009/50000000), (-1)), ((2500000009/50000000), (0)), ((2500000009/50000000), (1)), ((50), (1)), ((55), (1)), ((2750000009/50000000), (1)), ((2625000009/50000000), (0)), ((50), (-125000009/125000000)), ((2500000009/50000000), (-1))],
    point_ids := [6, 2, 7, 7, 8, 8, 3, 6] },
 { polygon := [((1250000003/25000000), (-1)), ((1250000003/25000000), (0)), ((1250000003/25000000), (1)), ((50), (1)), ((55), (1)), ((1375000003/25000000), (1)), ((1312500003/25000000), (0)), ((50), (-62500003/62500000)), ((1250000003/25000000), (-1))],
    ring := [((1250000003/25000000), (-1)), ((1250000003/25000000), (0)), ((1250000003/25000000), (1)), ((50), (1)), ((55), (1)), ((1375000003/25000000), (1)), ((1312500003/25000000), (0)), ((50), (-62500003/62500000)), ((1250000003/25000000), (-1))],
    point_ids := [6, 2, 7, 7, 8, 8, 3, 6] }]

def C9tbl1 : List Point :=
  [((0), (0)), ((50), (0)), ((105/2), (0)), ((100), (0)), ((0), (50)), ((50), (-1)), ((50), (1)), ((55), (1))]

def C9rings : List (List Point) :=
  [[((0), (0)), ((50), (0)), ((2500000009/50000000), (0)), ((105/2), (0)), ((2625000009/50000000), (0)), ((100), (0)), ((0), (50)), ((0), (0))],
   [((50), (-1)), ((50), (0)), ((50), (1)), ((2500000009/50000000), (1)), ((2750000009/50000000), (1)), ((55), (1)), ((105/2), (0)), ((2500000009/50000000), (-124999991/125000000)), ((50), (-1))],
   [((2500000009/50000000), (-1)), ((2500000009/50000000), (0)), ((2500000009/50000000), (1)), ((50), (1)), ((55), (1)), ((2750000009/50000000), (1)), ((2625000009/50000000), (0)), ((50), (-125000009/125000000)), ((2500000009/50000000), (-1))],
   [((1250000003/25000000), (-1)), ((1250000003/25000000), (0)), ((1250000003/25000000), (1)), ((50), (1)), ((55), (1)), ((1375000003/25000000), (1)), ((1312500003/25000000), (0)), ((50), (-62500003/62500000)), ((1250000003/25000000), (-1))]]

def C9L1 : Inserts :=
  [((0, 0), [((50), (0))]),
  ((1, 0), [((50), (0))]),
  ((1, 1), [((50), (0))]),
  ((0, 1), [((50), (0))]),
  ((0, 2), [((50), (0)), ((105/2), (0))]),
  ((1, 5), [((105/2), (0))]),
  ((1, 6), [((105/2), (0))]),
  ((0, 3), [((105/2), (0))]),
  ((0, 4), [((105/2), (0))])]

def C9L2 : Inserts :=
  [((0, 0), [((50), (0)), ((2500000009/50000000), (0))]),
  ((1, 0), [((50), (0))]),
  ((1, 1), [((50), (0))]),
  ((0, 1), [((50), (0)), ((2500000009/50000000), (0))]),
  ((0, 2), [((50), (0)), ((105/2), (0)), ((2500000009/50000000), (0)), ((2625000009/50000000), (0))]),
  ((1, 5), [((105/2), (0))]),
  ((1, 6), [((105/2), (0))]),
  ((0, 3), [((105/2), (0)), ((2625000009/50000000), (0))]),
  ((0, 4), [((105/2), (0)), ((2625000009/50000000), (0))]),
  ((2, 0), [((2500000009/50000000), (0))]),
  ((2, 1), [((2500000009/50000000), (0))]),
  ((2, 5), [((2625000009/50000000), (0))]),
  ((2, 6), [((2625000009/50000000), (0))])]

def C9L3 : Inserts :=
  [((0, 0), [((50), (0)), ((2500000009/50000000), (0))]),
  ((1, 0), [((50), (0))]),
  ((1, 1), [((50), (0))]),
  ((0, 1), [((50), (0)), ((2500000009/50000000), (0))]),
  ((0, 2), [((50), (0)), ((105/2), (0)), ((2500000009/50000000), (0)), ((2625000009/50000000), (0))]),
  ((1, 5), [((105/2), (0))]),
  ((1, 6), [((105/2), (0))]),
  ((0, 3), [((105/2), (0)), ((2625000009/50000000), (0))]),
  ((0, 4), [((105/2), (0)), ((2625000009/50000000), (0))]),
  ((2, 0), [((2500000009/50000000), (0))]),
  ((2, 1), [((2500000009/50000000), (0))]),
  ((2, 5), [((2625000009/50000000), (0))]),
  ((2, 6), [((2625000009/50000000), (0))]),
  ((3, 0), [((1250000003/25000000), (0))]),
  ((3, 1), [((1250000003/25000000), (0))]),
  ((3, 5), [((1312500003/25000000), (0))]),
  ((3, 6), [((1312500003/25000000), (0))])]

def C9L4 : Inserts :=
  [((0, 0), [((50), (0)), ((2500000009/50000000), (0))]),
  ((1, 0), [((50), (0)), ((50), (-125000009/125000000))]),
  ((1, 1), [((50), (0)), ((50), (1))]),
  ((0, 1), [((50), (0)), ((2500000009/50000000), (0))]),
  ((0, 2), [((50), (0)), ((105/2), (0)), ((2500000009/50000000), (0)), ((2625000009/50000000), (0))]),
  ((1, 5), [((105/2), (0)), ((55), (1))]),
  ((1, 6), [((105/2), (0)), ((2500000009/50000000), (-124999991/125000000))]),
  ((0, 3), [((105/2), (0)), ((2625000009/50000000), (0))]),
  ((0, 4), [((105/2), (0)), ((2625000009/50000000), (0))]),
  ((2, 0), [((2500000009/50000000), (0)), ((2500000009/50000000), (-124999991/125000000))]),
  ((2, 1), [((2500000009/50000000), (0)), ((2500000009/50000000), (1))]),
  ((2, 5), [((2625000009/50000000), (0)), ((2750000009/50000000), (1))]),
  ((2, 6), [((2625000009/50000000), (0)), ((50), (-125000009/125000000))]),
  ((3, 0), [((1250000003/25000000), (0))]),
  ((3, 1), [((1250000003/25000000), (0))]),
  ((3, 5), [((1312500003/25000000), (0))]),
  ((3, 6), [((1312500003/25000000), (0))]),
  ((2, 7), [((50), (-125000009/125000000)), ((2500000009/50000000), (-124999991/125000000))]),
  ((2, 2), [((50), (1)), ((2500000009/50000000), (1))]),
  ((2, 3), [((50), (1)), ((2500000009/50000000), (1)), ((55), (1))]),
  ((1, 2), [((2500000009/50000000), (1)), ((50), (1))]),
  ((1, 3), [((2500000009/50000000), (1)), ((55), (1)), ((2750000009/50000000), (1))]),
  ((2, 4), [((55), (1)), ((2750000009/50000000), (1))]),
  ((1, 4), [((55), (1)), ((2750000009/50000000), (1))]),
  ((1, 7), [((2500000009/50000000), (-124999991/125000000)), ((50), (-125000009/125000000))])]

def C9L5 : Inserts :=
  [((0, 0), [((50), (0)), ((2500000009/50000000), (0))]),
  ((1, 0), [((50), (0)), ((50), (-125000009/125000000))]),
  ((1, 1), [((50), (0)), ((50), (1))]),
  ((0, 1), [((50), (0)), ((2500000009/50000000), (0))]),
  ((0, 2), [((50), (0)), ((105/2), (0)), ((2500000009/50000000), (0)), ((2625000009/50000000), (0))]),
  ((1, 5), [((105/2), (0)), ((55), (1))]),
  ((1, 6), [((105/2), (0)), ((2500000009/50000000), (-124999991/125000000))]),
  ((0, 3), [((105/2), (0)), ((2625000009/50000000), (0))]),
  ((0, 4), [((105/2), (0)), ((2625000009/50000000), (0))]),
  ((2, 0), [((2500000009/50000000), (0)), ((2500000009/50000000), (-124999991/125000000))]),
  ((2, 1), [((2500000009/50000000), (0)), ((2500000009/50000000), (1))]),
  ((2, 5), [((2625000009/50000000), (0)), ((2750000009/50000000), (1))]),
  ((2, 6), [((2625000009/50000000), (0)), ((50), (-125000009/125000000))]),
  ((3, 0), [((1250000003/25000000), (0)), ((1250000003/25000000), (-62499997/62500000))]),
  ((3, 1), [((1250000003/25000000), (0)), ((1250000003/25000000), (1))]),
  ((3, 5), [((1312500003/25000000), (0)), ((1375000003/25000000), (1))]),
  ((3, 6), [((1312500003/25000000), (0)), ((50), (-62500003/62500000))]),
  ((2, 7), [((50), (-125000009/125000000)), ((2500000009/50000000), (-124999991/125000000))]),
  ((2, 2), [((50), (1)), ((2500000009/50000000), (1))]),
  ((2, 3), [((50), (1)), ((2500000009/50000000), (1)), ((55), (1))]),
  ((1, 2), [((2500000009/50000000), (1)), ((50), (1))]),
  ((1, 3), [((2500000009/50000000), (1)), ((55), (1)), ((2750000009/50000000), (1))]),
  ((2, 4), [((55), (1)), ((2750000009/50000000), (1))]),
  ((1, 4), [((55), (1)), ((2750000009/50000000), (1))]),
  ((1, 7), [((2500000009/50000000), (-124999991/125000000)), ((50), (-125000009/125000000))]),
  ((3, 7), [((50), (-62500003/62500000)), ((2500000009/50000000), (-124999991/125000000))]),
  ((3, 2), [((50), (1)), ((2500000009/50000000), (1))]),
  ((3, 3), [((50), (1)), ((2500000009/50000000), (1)), ((55), (1))]),
  ((3, 4), [((55), (1)), ((2750000009/50000000), (1))])]

def C9L6 : Inserts :=
  [((0, 0), [((50), (0)), ((2500000009/50000000), (0))]),
  ((1, 0), [((50), (0)), ((50), (-125000009/125000000))]),
  ((1, 1), [((50), (0)), ((50), (1))]),
  ((0, 1), [((50), (0)), ((2500000009/50000000), (0))]),
  ((0, 2), [((50), (0)), ((105/2), (0)), ((2500000009/50000000), (0)), ((2625000009/50000000), (0))]),
  ((1, 5), [((105/2), (0)), ((55), (1))]),
  ((1, 6), [((105/2), (0)), ((2500000009/50000000), (-124999991/125000000))]),
  ((0, 3), [((105/2), (0)), ((2625000009/50000000), (0))]),
  ((0, 4), [((105/2), (0)), ((2625000009/50000000), (0))]),
  ((2, 0), [((2500000009/50000000), (0)), ((2500000009/50000000), (-124999991/125000000))]),
  ((2, 1), [((2500000009/50000000), (0)), ((2500000009/50000000), (1))]),
  ((2, 5), [((2625000009/50000000), (0)), ((2750000009/50000000), (1))]),
  ((2, 6), [((2625000009/50000000), (0)), ((50), (-125000009/125000000)), ((1250000003/25000000), (-125000003/125000000))]),
  ((3, 0), [((1250000003/25000000), (0)), ((1250000003/25000000), (-62499997/62500000))]),
  ((3, 1), [((1250000003/25000000), (0)), ((1250000003/25000000), (1))]),
  ((3, 5), [((1312500003/25000000), (0)), ((1375000003/25000000), (1))]),
  ((3, 6), [((1312500003/25000000), (0)), ((50), (-62500003/62500000)), ((2500000009/50000000), (-124999997/125000000))]),
  ((2, 7), [((50), (-125000009/125000000)), ((2500000009/50000000), (-124999991/125000000)), ((1250000003/25000000), (-125000003/125000000))]),
  ((2, 2), [((50), (1)), ((2500000009/50000000), (1))]),
  ((2, 3), [((50), (1)), ((2500000009/50000000), (1)), ((55), (1)), ((1375000003/25000000), (1))]),
  ((1, 2), [((2500000009/50000000), (1)), ((50), (1))]),
  ((1, 3), [((2500000009/50000000), (1)), ((55), (1)), ((2750000009/50000000), (1))]),
  ((2, 4), [((55), (1)), ((2750000009/50000000), (1))]),
  ((1, 4), [((55), (1)), ((2750000009/50000000), (1))]),
  ((1, 7), [((2500000009/50000000), (-124999991/125000000)), ((50), (-125000009/125000000))]),
  ((3, 7), [((50), (-62500003/62500000)), ((2500000009/50000000), (-124999991/125000000))]),
  ((3, 2), [((50), (1)), ((2500000009/50000000), (1))]),
  ((3, 3), [((50), (1)), ((2500000009/50000000), (1)), ((55), (1)), ((2750000009/50000000), (1))]),
  ((3, 4), [((55), (1)), ((2750000009/50000000), (1))])]

def C9run2 : List PolyItem :=
 [{ polygon := [((0), (0)), ((2500000009/50000000), (0)), ((50), (0)), ((2500000009/50000000), (0)), ((50), (0)), ((2625000009/50000000), (0)), ((105/2), (0)), ((2625000009/50000000), (0)), ((105/2), (0)), ((100), (0)), ((0), (50)), ((0), (0))],
    ring := [((0), (0)), ((2500000009/50000000), (0)), ((50), (0)), ((2500000009/50000000), (0)), ((50), (0)), ((2625000009/50000000), (0)), ((105/2), (0)), ((2625000009/50000000), (0)), ((105/2), (0)), ((100), (0)), ((0), (50)), ((0), (0))],
    point_ids := [1, 2, 2, 3, 3, 4, 5] },
 { polygon := [((50), (-1)), ((50), (0)), ((50), (1)), ((2500000009/50000000), (1)), ((55), (1)), ((2750000009/50000000), (1)), ((55), (1)), ((105/2), (0)), ((2500000009/50000000), (-124999991/125000000)), ((50), (-1))],
    ring := [((50), (-1)), ((50), (0)), ((50), (1)), ((2500000009/50000000), (1)), ((55), (1)), ((2750000009/50000000), (1)), ((55), (1)), ((105/2), (0)), ((2500000009/50000000), (-124999991/125000000)), ((50), (-1))],
    point_ids := [6, 2, 7, 7, 8, 8, 3, 6] },
 { polygon := [((2500000009/50000000), (-1)), ((2500000009/50000000), (0)), ((2500000009/50000000), (1)), ((50), (1)), ((2500000009/50000000), (1)), ((1375000003/25000000), (1)), ((55), (1)), ((2750000009/50000000), (1)), ((2625000009/50000000), (0)), ((1250000003/25000000), (-125000003/125000000)), ((50), (-125000009/125000000)), ((2500000009/50000000), (-1))],
    ring := [((2500000009/50000000), (-1)), ((2500000009/50000000), (0)), ((2500000009/50000000), (1)), ((50), (1)), ((2500000009/50000000), (1)), ((1375000003/25000000), (1)), ((55), (1)), ((2750000009/50000000), (1)), ((2625000009/50000000), (0)), ((1250000003/25000000), (-125000003/125000000)), ((50), (-125000009/125000000)), ((2500000009/50000000), (-1))],
    point_ids := [6, 2, 7, 7, 8, 8, 3, 6] },
 { polygon := [((1250000003/25000000), (-1)), ((1250000003/25000000), (0)), ((1250000003/25000000), (1)), ((50), (1)), ((2500000009/50000000), (1)), ((2750000009/50000000), (1)), ((55), (1)), ((1375000003/25000000), (1)), ((1312500003/25000000), (0)), ((2500000009/50000000), (-124999997/125000000)), ((50), (-62500003/62500000)), ((1250000003/25000000), (-1))],
    ring := [((1250000003/25000000), (-1)), ((1250000003/25000000), (0)), ((1250000003/25000000), (1)), ((50), (1)), ((2500000009/50000000), (1)), ((2750000009/50000000), (1)), ((55), (1)), ((1375000003/25000000), (1)), ((1312500003/25000000), (0)), ((2500000009/50000000), (-124999997/125000000)), ((50), (-62500003/62500000)), ((1250000003/25000000), (-1))],
    point_ids := [6, 2, 7, 7, 8, 8, 3, 6] }]

def C9n2 : List PolyItem :=
 [{ polygon := [((0), (0)), ((2500000009/50000000), (0)), ((50), (0)), ((2500000009/50000000), (0)), ((50), (0)), ((2625000009/50000000), (0)), ((105/2), (0)), ((2625000009/50000000), (0)), ((105/2), (0)), ((100), (0)), ((0), (50)), ((0), (0))],
    ring := [((0), (0)), ((2500000009/50000000), (0)), ((50), (0)), ((2500000009/50000000), (0)), ((50), (0)), ((2625000009/50000000), (0)), ((105/2), (0)), ((2625000009/50000000), (0)), ((105/2), (0)), ((100), (0)), ((0), (50)), ((0), (0))],
    point_ids := [1, 2, 2, 2, 2, 3, 3, 3, 3, 4, 5] },
 { polygon := [((50), (-1)), ((50), (0)), ((50), (1)), ((2500000009/50000000), (1)), ((55), (1)), ((2750000009/50000000), (1)), ((55), (1)), ((105/2), (0)), ((2500000009/50000000), (-124999991/125000000)), ((50), (-1))],
    ring := [((50), (-1)), ((50), (0)), ((50), (1)), ((2500000009/50000000), (1)), ((55), (1)), ((2750000009/50000000), (1)), ((55), (1)), ((105/2), (0)), ((2500000009/50000000), (-124999991/125000000)), ((50), (-1))],
    point_ids := [6, 2, 7, 7, 8, 8, 8, 3, 6] },
 { polygon := [((2500000009/50000000), (-1)), ((2500000009/50000000), (0)), ((2500000009/50000000), (1)), ((50), (1)), ((2500000009/50000000), (1)), ((1375000003/25000000), (1)), ((55), (1)), ((2750000009/50000000), (1)), ((2625000009/50000000), (0)), ((1250000003/25000000), (-125000003/125000000)), ((50), (-125000009/125000000)), ((2500000009/50000000), (-1))],
    ring := [((2500000009/50000000), (-1)), ((2500000009/50000000), (0)), ((2500000009/50000000), (1)), ((50), (1)), ((2500000009/50000000), (1)), ((1375000003/25000000), (1)), ((55), (1)), ((2750000009/50000000), (1)), ((2625000009/50000000), (0)), ((1250000003/25000000), (-125000003/125000000)), ((50), (-125000009/125000000)), ((2500000009/50000000), (-1))],
    point_ids := [6, 2, 7, 7, 7, 8, 8, 8, 3, 6, 6] },
 { polygon := [((1250000003/25000000), (-1)), ((1250000003/25000000), (0)), ((1250000003/25000000), (1)), ((50), (1)), ((2500000009/50000000), (1)), ((2750000009/50000000), (1)), ((55), (1)), ((1375000003/25000000), (1)), ((1312500003/25000000), (0)), ((2500000009/50000000), (-124999997/125000000)), ((50), (-62500003/62500000)), ((1250000003/25000000), (-1))],
    ring := [((1250000003/25000000), (-1)), ((1250000003/25000000), (0)), ((1250000003/25000000), (1)), ((50), (1)), ((2500000009/50000000), (1)), ((2750000009/50000000), (1)), ((55), (1)), ((1375000003/25000000), (1)), ((1312500003/25000000), (0)), ((2500000009/50000000), (-124999997/125000000)), ((50), (-62500003/62500000)), ((1250000003/25000000), (-1))],
    point_ids := [6, 2, 7, 7, 7, 8, 8, 8, 3, 6, 6] }]

def C9tbl2 : List Point :=
  [((0), (0)), ((50), (0)), ((105/2), (0)), ((100), (0)), ((0), (50)), ((50), (-1)), ((50), (1)), ((55), (1))]


/-- Two adjacent unit squares sharing an edge: concrete input for the
insertion-only witness. -/
def C3demo : List PolyItem :=
  [{ polygon := [((0 : ℚ), (0 : ℚ)), (1, 0), (1, 1), (0, 1), (0, 0)] },
   { polygon := [((1 : ℚ), (0 : ℚ)), (2, 0), (2, 1), (1, 1), (1, 0)] }]

/-- A degenerate two-point item whose reconstruction yields no polygon:
concrete input for the empty-reconstruction behavior. -/
def C8demo : List PolyItem := [{ polygon := [((0 : ℚ), (0 : ℚ)), (1, 0), (0, 0)] }]


/-- The registry invariant maintained by both passes of
`assign_global_vertex_numbers`: `gid` is the next free id, every assigned
id points back (1-based) to its key's entry in `id_to_point`, and no two
distinct keys hold the same id. -/
def RegInv (s : RegState) : Prop :=
  s.gid = s.tbl.length + 1 ∧
  (∀ k j, s.id_map k = some j →
    1 ≤ j ∧ j - 1 < s.tbl.length ∧ s.tbl.getD (j - 1) pdfl = k) ∧
  (∀ k k2 j, s.id_map k = some j → s.id_map k2 = some j → k = k2)

/-- A triangle two of whose vertices are within the rounding tolerance of
each other but round to different keys: concrete input for the
vertex-identity claims. -/
def C4demo : List PolyItem :=
  [{ polygon := [((4 / 10000 : ℚ), (0 : ℚ)), (6 / 10000, 0), (0, 1), (4 / 10000, 0)] }]

-- ======================= basic lemmas about the model =======================

theorem unary_union_nil : unary_union [] = ∅ := rfl

theorem unary_union_cons (g : Geometry) (l : List Geometry) :
    unary_union (g :: l) = g ∪ unary_union l := rfl

theorem mem_unary_union {x : ℤ} {l : List Geometry} :
    x ∈ unary_union l ↔ ∃ g ∈ l, x ∈ g := by
  induction l with
  | nil => simp [unary_union]
  | cons g rest ih => simp [unary_union_cons, Finset.mem_union, ih]

theorem cellArea_pos : 0 < cellArea := by norm_num [cellArea]

theorem area_pos_iff (g : Geometry) : 0 < area g ↔ g ≠ ∅ := by
  unfold area
  constructor
  · intro h he
    rw [he] at h
    simp at h
  · intro h
    have hc : (0 : ℚ) < g.card := by
      exact_mod_cast Finset.card_pos.2 (Finset.nonempty_iff_ne_empty.2 h)
    exact mul_pos hc cellArea_pos

theorem area_singleton (c : ℤ) : area ({c} : Geometry) = cellArea := by
  simp [area]

theorem multipoly_iter_empty_iff (g : Geometry) :
    multipoly_iter g = [] ↔ g = ∅ := by
  unfold multipoly_iter
  rw [List.map_eq_nil_iff]
  constructor
  · intro h
    have h1 : (g.sort (· ≤ ·)).length = 0 := by rw [h]; rfl
    rw [Finset.length_sort] at h1
    exact Finset.card_eq_zero.1 h1
  · intro h
    subst h
    exact Finset.sort_empty _

theorem multipoly_iter_filter_pos (g : Geometry) :
    (multipoly_iter g).filter (fun p => decide (0 < area p)) = multipoly_iter g := by
  apply List.filter_eq_self.2
  intro p hp
  unfold multipoly_iter at hp
  rcases List.mem_map.1 hp with ⟨c, -, rfl⟩
  exact decide_eq_true ((area_pos_iff _).2 (Finset.singleton_ne_empty c))

theorem multipoly_iter_area_sum (g : Geometry) :
    ((multipoly_iter g).map area).sum = area g := by
  have h : ∀ l : List ℤ, ((l.map (fun c => ({c} : Geometry))).map area).sum
      = (l.length : ℚ) * cellArea := by
    intro l
    induction l with
    | nil => simp
    | cons c rest ih =>
      simp only [List.map_cons, List.sum_cons, List.length_cons, ih, area_singleton]
      push_cast
      ring
  unfold multipoly_iter
  rw [h, Finset.length_sort, area]

theorem multipoly_iter_union (g : Geometry) :
    unary_union (multipoly_iter g) = g := by
  ext x
  rw [mem_unary_union]
  constructor
  · rintro ⟨p, hp, hx⟩
    rcases List.mem_map.1 hp with ⟨c, hc, rfl⟩
    rw [Finset.mem_singleton] at hx
    subst hx
    exact (Finset.mem_sort (· ≤ ·)).1 hc
  · intro hx
    exact ⟨{x}, List.mem_map.2 ⟨x, (Finset.mem_sort (· ≤ ·)).2 hx, rfl⟩,
      Finset.mem_singleton_self x⟩

theorem area_nonneg (g : Geometry) : 0 ≤ area g :=
  mul_nonneg (Nat.cast_nonneg _) cellArea_pos.le

theorem TOL_AREA_nonneg : 0 ≤ TOL_AREA := by norm_num [TOL_AREA]

-- ======================= lemmas about tagged part lists =======================

theorem partsOf_append (l1 l2 : List (ℕ × Geometry)) (i : ℕ) :
    partsOf (l1 ++ l2) i = partsOf l1 i ++ partsOf l2 i := by
  simp [partsOf, List.filter_append]

theorem partsOf_of_tag_eq (l : List (ℕ × Geometry)) (i : ℕ)
    (h : ∀ q ∈ l, q.1 = i) : partsOf l i = l.map (fun q => q.2) := by
  unfold partsOf
  rw [List.filter_eq_self.2 (fun q hq => decide_eq_true (h q hq))]

theorem partsOf_of_tag_ne (l : List (ℕ × Geometry)) (i : ℕ)
    (h : ∀ q ∈ l, q.1 ≠ i) : partsOf l i = [] := by
  unfold partsOf
  rw [List.filter_eq_nil_iff.2 (fun q hq => by simpa using h q hq)]
  rfl

theorem blocksFrom_tag_ge (f : ℕ → Geometry → List (ℕ × Geometry))
    (hf : ∀ k g q, q ∈ f k g → q.1 = k) :
    ∀ (l : List Geometry) (k : ℕ) (q : ℕ × Geometry),
      q ∈ blocksFrom f k l → k ≤ q.1 := by
  intro l
  induction l with
  | nil => intro k q hq; cases hq
  | cons g rest ih =>
    intro k q hq
    rcases List.mem_append.1 hq with h | h
    · exact le_of_eq (hf k g q h).symm
    · exact Nat.le_of_succ_le (ih (k + 1) q h)

theorem partsOf_blocksFrom (f : ℕ → Geometry → List (ℕ × Geometry))
    (hf : ∀ k g q, q ∈ f k g → q.1 = k) :
    ∀ (l : List Geometry) (k j : ℕ), j < l.length →
      partsOf (blocksFrom f k l) (k + j) = (f (k + j) (l.getD j ∅)).map (fun q => q.2) := by
  intro l
  induction l with
  | nil => intro k j hj; cases hj
  | cons g rest ih =>
    intro k j hj
    show partsOf (f k g ++ blocksFrom f (k + 1) rest) (k + j) = _
    rw [partsOf_append]
    cases j with
    | zero =>
      rw [Nat.add_zero]
      rw [partsOf_of_tag_eq (f k g) k (fun q hq => hf k g q hq)]
      rw [partsOf_of_tag_ne (blocksFrom f (k + 1) rest) k
        (fun q hq => Nat.ne_of_gt (blocksFrom_tag_ge f hf rest (k + 1) q hq))]
      simp [List.getD]
    | succ j =>
      rw [partsOf_of_tag_ne (f k g) (k + (j + 1))
        (fun q hq => by rw [hf k g q hq]; omega)]
      have harr : k + (j + 1) = (k + 1) + j := by omega
      rw [harr, ih (k + 1) j (by simpa using hj)]
      simp [List.getD]

theorem claimedBlock_tags (final_u : Option Geometry) :
    ∀ k g q, q ∈ claimedBlock final_u k g → q.1 = k := by
  intro k g q hq
  unfold claimedBlock at hq
  cases final_u with
  | none => cases hq
  | some fu =>
    simp only at hq
    split at hq
    · cases hq
    · rcases List.mem_map.1 hq with ⟨p, -, rfl⟩
      rfl

theorem remainderBlock_tags (claimed : List (ℕ × Geometry)) :
    ∀ k g q, q ∈ remainderBlock claimed k g → q.1 = k := by
  intro k g q hq
  unfold remainderBlock at hq
  simp only at hq
  split at hq
  · split at hq
    · rw [List.mem_singleton] at hq
      subst hq
      rfl
    · cases hq
  · split at hq
    · cases hq
    · rcases List.mem_map.1 hq with ⟨p, -, rfl⟩
      rfl

theorem sdiff_inter_eq (g fu : Geometry) : g \ (g ∩ fu) = g \ fu := by
  ext x
  simp only [Finset.mem_sdiff, Finset.mem_inter]
  tauto

theorem area_split (g fu : Geometry) : area (g \ fu) + area (g ∩ fu) = area g := by
  unfold area
  rw [← Finset.card_sdiff_add_card_inter g fu]
  push_cast
  ring

/-- Exact per-initial additivity: for the `1+j`-th Initial polygon, the areas
of its remainder parts plus the areas of its claimed parts sum exactly to its
own area. -/
theorem additivity_core (final_u : Option Geometry) (initials : List Geometry)
    (j : ℕ) (hj : j < initials.length) :
    ((partsOf (blocksFrom (remainderBlock (claimed_parts_of final_u initials)) 1 initials)
        (1 + j)).map area).sum
      + ((partsOf (claimed_parts_of final_u initials) (1 + j)).map area).sum
      = area (initials.getD j ∅) := by
  have hclaim : partsOf (claimed_parts_of final_u initials) (1 + j)
      = (claimedBlock final_u (1 + j) (initials.getD j ∅)).map (fun q => q.2) :=
    partsOf_blocksFrom _ (claimedBlock_tags final_u) initials 1 j hj
  have hrem : partsOf (blocksFrom (remainderBlock (claimed_parts_of final_u initials)) 1 initials)
        (1 + j)
      = (remainderBlock (claimed_parts_of final_u initials) (1 + j)
          (initials.getD j ∅)).map (fun q => q.2) :=
    partsOf_blocksFrom _ (remainderBlock_tags _) initials 1 j hj
  rw [hclaim, hrem]
  unfold remainderBlock
  simp only
  rw [hclaim]
  cases final_u with
  | none =>
    show ((if ((claimedBlock none (1 + j) (initials.getD j ∅)).map (fun q => q.2)).isEmpty
        then _ else _ : List (ℕ × Geometry)).map _ |>.map area).sum + _ = _
    simp only [claimedBlock, List.map_nil, List.isEmpty_nil, if_pos]
    split
    · next hpos =>
      simp only [List.map_cons, List.map_nil, List.sum_cons, List.sum_nil]
      ring
    · next hpos =>
      have h0 : area (initials.getD j ∅) = 0 :=
        le_antisymm (not_lt.1 hpos) (area_nonneg _)
      simp only [List.map_nil, List.sum_nil, add_zero, zero_add]
      exact h0.symm
  | some fu =>
    simp only [claimedBlock, make_valid, intersection]
    split
    · next hinter =>
      simp only [List.map_nil, List.isEmpty_nil, if_pos]
      split
      · next hpos =>
        simp only [List.map_cons, List.map_nil, List.sum_cons, List.sum_nil]
        ring
      · next hpos =>
        have h0 : area (initials.getD j ∅) = 0 :=
          le_antisymm (not_lt.1 hpos) (area_nonneg _)
        simp only [List.map_nil, List.sum_nil, add_zero, zero_add]
        exact h0.symm
    · next hinter =>
      rw [multipoly_iter_filter_pos]
      have hmapmap : ∀ (l : List Geometry) (i : ℕ),
          (l.map (fun p => (i, p))).map (fun q : ℕ × Geometry => q.2) = l := by
        intro l i
        induction l with
        | nil => rfl
        | cons x xs ih => simp only [List.map_cons, ih]
      rw [hmapmap]
      have hne : (multipoly_iter (initials.getD j ∅ ∩ fu)).isEmpty = false := by
        rw [List.isEmpty_eq_false_iff_exists_mem]
        rcases List.exists_mem_of_ne_nil _ ((multipoly_iter_empty_iff _).not.2 hinter) with ⟨p, hp⟩
        exact ⟨p, hp⟩
      rw [hne]
      simp only [Bool.false_eq_true, if_false]
      rw [multipoly_iter_union]
      simp only [make_valid, difference]
      rw [sdiff_inter_eq]
      split
      · next hdiff =>
        have hsub : initials.getD j ∅ ⊆ fu := Finset.sdiff_eq_empty_iff_subset.1 hdiff
        have hint : initials.getD j ∅ ∩ fu = initials.getD j ∅ := Finset.inter_eq_left.2 hsub
        rw [hint]
        simp [multipoly_iter_area_sum]
      · next hdiff =>
        rw [multipoly_iter_filter_pos, hmapmap, multipoly_iter_area_sum,
          multipoly_iter_area_sum]
        exact area_split _ fu

-- ======================= claims about the polygon algebra =======================

/-- C2: for every Initial polygon `i`, the area of the remainder parts
attributed to `i` plus the total area of the claimed parts attributed to `i`
equals the area of Initial polygon `i`, within the area tolerance, for the
parts produced by `compute_claimed_and_removed`. -/
theorem C2_area_additivity (initials bases finals : List Geometry) (i : ℕ)
    (h1 : 1 ≤ i) (h2 : i ≤ initials.length) :
    |((partsOf (compute_claimed_and_removed initials bases finals).initial_minus_d i).map
        area).sum
      + ((partsOf (compute_claimed_and_removed initials bases finals).claimed_parts i).map
        area).sum
      - area (initials.getD (i - 1) ∅)| ≤ TOL_AREA := by
  obtain ⟨j, rfl⟩ : ∃ j, i = 1 + j := ⟨i - 1, by omega⟩
  have hj : j < initials.length := by omega
  have hc : (compute_claimed_and_removed initials bases finals).claimed_parts
      = claimed_parts_of (if finals.isEmpty then none else some (unary_union finals))
        initials := rfl
  have hr : (compute_claimed_and_removed initials bases finals).initial_minus_d
      = blocksFrom
          (remainderBlock
            (claimed_parts_of (if finals.isEmpty then none else some (unary_union finals))
              initials)) 1 initials := rfl
  rw [hc, hr]
  have hidx : 1 + j - 1 = j := by omega
  rw [hidx,
    additivity_core (if finals.isEmpty then none else some (unary_union finals)) initials j hj]
  simp only [sub_self, abs_zero]
  exact TOL_AREA_nonneg

theorem C2_area_additivity_witness :
    (1 : ℕ) ≤ 1 ∧ (1 : ℕ) ≤ [({0, 1} : Geometry)].length ∧
    |((partsOf (compute_claimed_and_removed [({0, 1} : Geometry)] [] [({1, 2} : Geometry)]).initial_minus_d 1).map
        area).sum
      + ((partsOf (compute_claimed_and_removed [({0, 1} : Geometry)] [] [({1, 2} : Geometry)]).claimed_parts 1).map
        area).sum
      - area ([({0, 1} : Geometry)].getD (1 - 1) ∅)| ≤ TOL_AREA :=
  ⟨by decide, by decide,
    C2_area_additivity [({0, 1} : Geometry)] [] [({1, 2} : Geometry)] 1 (by decide) (by decide)⟩

/-- C7: an Initial polygon with positive area and no claimed parts passes
through to the remainder collection unchanged (literally the same polygon);
in particular an Initial polygon disjoint from the Final union has no claimed
parts and its remainder is the original polygon unchanged. -/
theorem C7_pass_through (initials bases finals : List Geometry) (i : ℕ)
    (h1 : 1 ≤ i) (h2 : i ≤ initials.length)
    (hpos : 0 < area (initials.getD (i - 1) ∅)) :
    (partsOf (compute_claimed_and_removed initials bases finals).claimed_parts i = [] →
      partsOf (compute_claimed_and_removed initials bases finals).initial_minus_d i
        = [initials.getD (i - 1) ∅]) ∧
    (intersection (initials.getD (i - 1) ∅) (unary_union finals) = ∅ →
      partsOf (compute_claimed_and_removed initials bases finals).claimed_parts i = [] ∧
      partsOf (compute_claimed_and_removed initials bases finals).initial_minus_d i
        = [initials.getD (i - 1) ∅]) := by
  obtain ⟨j, rfl⟩ : ∃ j, i = 1 + j := ⟨i - 1, by omega⟩
  have hj : j < initials.length := by omega
  have hidx : 1 + j - 1 = j := by omega
  rw [hidx] at hpos ⊢
  have hc : (compute_claimed_and_removed initials bases finals).claimed_parts
      = claimed_parts_of (if finals.isEmpty then none else some (unary_union finals))
        initials := rfl
  have hr : (compute_claimed_and_removed initials bases finals).initial_minus_d
      = blocksFrom
          (remainderBlock
            (claimed_parts_of (if finals.isEmpty then none else some (unary_union finals))
              initials)) 1 initials := rfl
  rw [hc, hr]
  have hclaim := partsOf_blocksFrom _
    (claimedBlock_tags (if finals.isEmpty then none else some (unary_union finals)))
    initials 1 j hj
  have hrem := partsOf_blocksFrom _
    (remainderBlock_tags
      (claimed_parts_of (if finals.isEmpty then none else some (unary_union finals)) initials))
    initials 1 j hj
  have hmain : partsOf
      (claimed_parts_of (if finals.isEmpty then none else some (unary_union finals)) initials)
      (1 + j) = [] →
      partsOf
        (blocksFrom
          (remainderBlock
            (claimed_parts_of (if finals.isEmpty then none else some (unary_union finals))
              initials)) 1 initials) (1 + j) = [initials.getD j ∅] := by
    intro hempty
    rw [hrem]
    unfold remainderBlock
    simp only
    rw [hempty]
    simp only [List.isEmpty_nil, if_pos, if_pos hpos]
    rfl
  refine ⟨hmain, fun hdis => ?_⟩
  have hempty : partsOf
      (claimed_parts_of (if finals.isEmpty then none else some (unary_union finals)) initials)
      (1 + j) = [] := by
    unfold claimed_parts_of
    rw [hclaim]
    cases finals with
    | nil => rfl
    | cons f fs =>
      simp only [List.isEmpty_cons, Bool.false_eq_true, if_false]
      unfold claimedBlock
      simp only [make_valid]
      rw [if_pos]
      · rfl
      · simpa [intersection] using hdis
  exact ⟨hempty, hmain hempty⟩

theorem C7_pass_through_witness :
    partsOf (compute_claimed_and_removed [({0} : Geometry)] [] [({5} : Geometry)]).claimed_parts
      1 = [] ∧
    partsOf (compute_claimed_and_removed [({0} : Geometry)] [] [({5} : Geometry)]).initial_minus_d
      1 = [({0} : Geometry)] :=
  (C7_pass_through [({0} : Geometry)] [] [({5} : Geometry)] 1 (by decide) (by decide)
    (by norm_num [area, cellArea, List.getD])).2 (by decide)

/-- C10: when `final_union` is present but `base_union` is absent and the
claimed-parts list is empty, `algebraic_check` returns `pass = false` with
residual equal to the area of `final_union`, unconditionally — even when
that area is at most the area tolerance. -/
theorem C10_no_reconstruction (fu : Geometry) (removed : List Geometry) :
    algebraic_check none (some fu) removed [] = (false, area fu) := rfl

/-- C1 (amended): whenever `final_union` is present and a reconstructed
geometry exists — that is, `base_union` is present or the claimed-parts
list is nonempty — `algebraic_check` returns the pair whose second
component is the area of the symmetric difference between the reconstructed
geometry and `final_union` and whose first component is true iff that
residual is at most the area tolerance.  (When both `base_union` and the
claimed parts are absent the function instead returns `false`
unconditionally; see the counterexample.) -/
theorem C1_check_spec (base_u : Option Geometry) (fu : Geometry)
    (removed : List Geometry) (claimed : List (ℕ × Geometry))
    (h : base_u.isSome = true ∨ claimed ≠ []) :
    algebraic_check base_u (some fu) removed claimed =
      (decide (area (symmetric_difference (reconstructed_spec base_u removed claimed) fu)
          ≤ TOL_AREA),
       area (symmetric_difference (reconstructed_spec base_u removed claimed) fu)) := by
  cases base_u with
  | none =>
    cases claimed with
    | nil =>
      rcases h with h | h
      · cases h
      · exact absurd rfl h
    | cons q cl =>
      show ((decide _ : Bool), _) = _
      simp only [algebraic_check, reconstructed_spec, make_valid, List.isEmpty_cons,
        Bool.false_eq_true, if_false, Option.getD_none, Finset.empty_sdiff,
        Finset.empty_union]
  | some bu =>
    cases removed with
    | nil =>
      cases claimed with
      | nil =>
        simp only [algebraic_check, reconstructed_spec, make_valid, List.isEmpty_nil,
          if_pos, unary_union, List.foldr_nil, List.map_nil, Option.getD_some,
          Finset.sdiff_empty, Finset.union_empty]
      | cons q cl =>
        simp only [algebraic_check, reconstructed_spec, make_valid, List.isEmpty_nil,
          List.isEmpty_cons, Bool.false_eq_true, if_false, if_pos, unary_union,
          List.foldr_nil, Option.getD_some, Finset.sdiff_empty]
    | cons r rs =>
      cases claimed with
      | nil =>
        simp only [algebraic_check, reconstructed_spec, make_valid, List.isEmpty_nil,
          List.isEmpty_cons, Bool.false_eq_true, if_false, if_pos, List.map_nil,
          unary_union, List.foldr_nil, Option.getD_some, difference,
          Finset.union_empty]
      | cons q cl =>
        simp only [algebraic_check, reconstructed_spec, make_valid, List.isEmpty_cons,
          Bool.false_eq_true, if_false, Option.getD_some, difference]

theorem C1_check_spec_witness :
    algebraic_check (some ({0} : Geometry)) (some ({0} : Geometry)) [] [] =
      (decide (area (symmetric_difference (reconstructed_spec (some ({0} : Geometry)) [] [])
          ({0} : Geometry)) ≤ TOL_AREA),
       area (symmetric_difference (reconstructed_spec (some ({0} : Geometry)) [] [])
          ({0} : Geometry))) :=
  C1_check_spec (some ({0} : Geometry)) ({0} : Geometry) [] [] (Or.inl rfl)

/-- C1 (counterexample): with `final_union` present (a geometry of area
`1e-9`, below the tolerance), `base_union` absent and no claimed parts, the
reconstructed geometry of the claim is empty, the residual demanded by the
claim equals `area final_union` and is at most the tolerance, yet
`algebraic_check` returns `pass = false` — refuting “pass if and only if the
residual is at most the area tolerance”. -/
theorem C1_counterexample :
    algebraic_check none (some ({0} : Geometry)) [] [] = (false, area ({0} : Geometry)) ∧
    area (symmetric_difference (reconstructed_spec none [] []) ({0} : Geometry))
      = area ({0} : Geometry) ∧
    area (symmetric_difference (reconstructed_spec none [] []) ({0} : Geometry))
      ≤ TOL_AREA := by
  refine ⟨rfl, ?_, ?_⟩
  · rfl
  · norm_num [reconstructed_spec, symmetric_difference, unary_union, area, cellArea,
      TOL_AREA]

-- ======================= claim C6: transversal intersection =======================

/-- C6: whenever the magnitude of the 2x2 determinant exceeds the epsilon,
`_seg_intersection` reports the single transversal point computed from the
parametric form `a + t * (b - a)` exactly when both solved parameters lie in
`[-eps, 1 + eps]`, and reports no intersection otherwise. -/
theorem C6_transversal (a b c d : Point) (tol : ℚ) (h : |segDen a b c d| > tol) :
    _seg_intersection a b c d tol =
      (if -tol ≤ segT a b c d ∧ segT a b c d ≤ 1 + tol ∧
          -tol ≤ segU a b c d ∧ segU a b c d ≤ 1 + tol then
        some (SegInt.point
          (a.1 + segT a b c d * (b.1 - a.1), a.2 + segT a b c d * (b.2 - a.2)))
      else none) := by
  unfold _seg_intersection
  rw [if_pos h]

theorem C6_transversal_witness :
    |segDen ((0 : ℚ), (0 : ℚ)) (1, 1) (0, 1) (1, 0)| > 1 / 10000000 ∧
    _seg_intersection ((0 : ℚ), (0 : ℚ)) (1, 1) (0, 1) (1, 0) (1 / 10000000) =
      (if -(1 / 10000000 : ℚ) ≤ segT ((0 : ℚ), (0 : ℚ)) (1, 1) (0, 1) (1, 0) ∧
          segT ((0 : ℚ), (0 : ℚ)) (1, 1) (0, 1) (1, 0) ≤ 1 + 1 / 10000000 ∧
          -(1 / 10000000 : ℚ) ≤ segU ((0 : ℚ), (0 : ℚ)) (1, 1) (0, 1) (1, 0) ∧
          segU ((0 : ℚ), (0 : ℚ)) (1, 1) (0, 1) (1, 0) ≤ 1 + 1 / 10000000 then
        some (SegInt.point
          ((0 : ℚ) + segT ((0 : ℚ), (0 : ℚ)) (1, 1) (0, 1) (1, 0) * ((1 : ℚ) - 0),
           (0 : ℚ) + segT ((0 : ℚ), (0 : ℚ)) (1, 1) (0, 1) (1, 0) * ((1 : ℚ) - 0)))
      else none) :=
  ⟨by decide, C6_transversal ((0 : ℚ), (0 : ℚ)) (1, 1) (0, 1) (1, 0) (1 / 10000000)
    (by decide)⟩

-- ======================= augmentation structure lemmas =======================

theorem closeRing_cons (x : Point) (xs : List Point) :
    closeRing (x :: xs) =
      if (x :: xs).getLast? = some x then x :: xs else (x :: xs) ++ [x] := rfl

theorem closeRing_idem (r : List Point) : closeRing (closeRing r) = closeRing r := by
  cases r with
  | nil => rfl
  | cons x xs =>
    rw [closeRing_cons]
    split
    · next h => rw [closeRing_cons, if_pos h]
    · next h =>
      have hlast0 : ((x :: xs) ++ [x]).getLast? = some x := List.getLast?_concat _
      have hlast : (x :: (xs ++ [x])).getLast? = some x := hlast0
      show closeRing (x :: (xs ++ [x])) = (x :: xs) ++ [x]
      rw [closeRing_cons, if_pos hlast]
      rfl

theorem augment_intersections_getD (items : List PolyItem) (tol : ℚ) (idx : ℕ)
    (h : idx < items.length) :
    (augment_intersections items tol).getD idx default
      = augmentItem items tol idx (items.getD idx default) := by
  unfold augment_intersections
  have hne : items.isEmpty = false := by
    cases items with
    | nil => cases h
    | cons a l => rfl
  rw [hne]
  simp only [Bool.false_eq_true, if_false]
  rw [List.getD_eq_getElem?_getD, List.getElem?_map]
  rw [List.getElem?_range h]
  rfl

theorem augment_intersections_length (items : List PolyItem) (tol : ℚ) :
    (augment_intersections items tol).length = items.length := by
  unfold augment_intersections
  split
  · rfl
  · rw [List.length_map, List.length_range]

theorem augmentItem_ring (items : List PolyItem) (tol : ℚ) (idx : ℕ) (it : PolyItem) :
    (augmentItem items tol idx it).ring = newRingOf items tol idx := by
  unfold augmentItem
  cases hc : coords_to_polygon (newRingOf items tol idx) with
  | none => rfl
  | some p =>
    simp only
    unfold coords_to_polygon at hc
    split at hc
    · cases hc
    · have hp : p = make_valid_coords (closeRing (newRingOf items tol idx)) :=
        (Option.some_inj.1 hc).symm
      have hcl : closeRing (newRingOf items tol idx) = newRingOf items tol idx := by
        unfold newRingOf
        exact closeRing_idem _
      rw [hp, hcl]
      rfl

theorem dropLast_eq_map_range (l : List Point) :
    l.dropLast = (List.range (l.length - 1)).map (fun e => l.getD e pdfl) := by
  induction l with
  | nil => rfl
  | cons x xs ih =>
    cases xs with
    | nil => rfl
    | cons y ys =>
      have h1 : ((x :: y :: ys : List Point)).length - 1 = ys.length + 1 := by simp
      rw [h1, List.range_succ_eq_map, List.map_cons, List.map_map]
      have h3 : ((fun e => (x :: y :: ys : List Point).getD e pdfl) ∘ Nat.succ)
          = fun e => (y :: ys : List Point).getD e pdfl := rfl
      rw [h3]
      have h5 := ih
      have h6 : ((y :: ys : List Point)).length - 1 = ys.length := by simp
      rw [h6] at h5
      show x :: (y :: ys : List Point).dropLast = _
      rw [h5]
      rfl

theorem sublist_map_range_flatten (g : ℕ → Point) (f : ℕ → List Point)
    (hf : ∀ e, ∃ t, f e = g e :: t) :
    ∀ es : List ℕ, (es.map g).Sublist ((es.map f).flatten) := by
  intro es
  induction es with
  | nil => exact List.nil_sublist _
  | cons e rest ih =>
    rcases hf e with ⟨t, ht⟩
    simp only [List.map_cons, List.flatten_cons, ht]
    exact List.Sublist.cons₂ _ ((ih.trans (List.sublist_append_right t _)))

theorem sublist_closeRing (l r : List Point) (h : l.Sublist r) :
    l.Sublist (closeRing r) := by
  cases r with
  | nil => exact h
  | cons x xs =>
    rw [closeRing_cons]
    split
    · exact h
    · exact h.trans (List.sublist_append_left _ _)

theorem ringsOf_getD (items : List PolyItem) (idx : ℕ) (h : idx < items.length) :
    (ringsOf items).getD idx []
      = closeRing (ring_coords (items.getD idx default).polygon) := by
  unfold ringsOf
  rw [List.getD_eq_getElem?_getD, List.getElem?_map, List.getElem?_eq_getElem h]
  rw [List.getD_eq_getElem?_getD, List.getElem?_eq_getElem h]
  rfl

theorem dropLast_sublist_newRingOf (items : List PolyItem) (tol : ℚ) (idx : ℕ)
    (h : idx < items.length) :
    ((closeRing (ring_coords (items.getD idx default).polygon)).dropLast).Sublist
      (newRingOf items tol idx) := by
  unfold newRingOf
  rw [ringsOf_getD items idx h]
  set ring := closeRing (ring_coords (items.getD idx default).polygon) with hring
  apply sublist_closeRing
  set core := rebuildCore tol ring (fun e => getIns (allInserts items tol) idx e)
    with hcore
  by_cases hc : core.isEmpty
  · rw [if_pos hc]
    exact List.dropLast_sublist ring
  · rw [if_neg hc]
    rw [hcore]
    unfold rebuildCore
    rw [dropLast_eq_map_range]
    apply sublist_map_range_flatten
    intro e
    exact ⟨_, rfl⟩

/-- C3: augmentation is insertion-only.  For every item, the sequence of the
vertices of its ring before augmentation (its closed ring without the
closing duplicate) is a subsequence of the item's ring after
`augment_intersections`: every original vertex still appears there exactly
(hence within epsilon), in the original order (hence in the same cyclic
order, as the first vertex is also preserved), and no original vertex is
removed or reordered. -/
theorem C3_insertion_only (items : List PolyItem) (tol : ℚ) (idx : ℕ)
    (h : idx < items.length) :
    ((closeRing (ring_coords (items.getD idx default).polygon)).dropLast).Sublist
      ((augment_intersections items tol).getD idx default).ring := by
  rw [augment_intersections_getD items tol idx h, augmentItem_ring]
  exact dropLast_sublist_newRingOf items tol idx h

theorem C3_insertion_only_witness :
    0 < C3demo.length ∧
    ((closeRing (ring_coords (C3demo.getD 0 default).polygon)).dropLast).Sublist
      ((augment_intersections C3demo (1 / 10000000)).getD 0 default).ring :=
  ⟨by decide, C3_insertion_only C3demo (1 / 10000000) 0 (by decide)⟩

/-- C8 (amended): when the ring reconstruction of an item yields an empty
polygon (`coords_to_polygon` returns none), `augment_intersections` does not
signal any error: it completes normally, leaves the item's polygon
unchanged, and replaces the item's ring with the reconstructed closed ring;
other items are processed independently and are unaffected. -/
theorem C8_empty_reconstruction (items : List PolyItem) (tol : ℚ) (idx : ℕ)
    (h : idx < items.length)
    (hempty : coords_to_polygon (newRingOf items tol idx) = none) :
    ((augment_intersections items tol).getD idx default).polygon
        = (items.getD idx default).polygon ∧
    ((augment_intersections items tol).getD idx default).ring
        = newRingOf items tol idx := by
  rw [augment_intersections_getD items tol idx h]
  unfold augmentItem
  rw [hempty]
  exact ⟨rfl, rfl⟩

theorem C8_empty_reconstruction_witness :
    (0 < C8demo.length ∧
      coords_to_polygon (newRingOf C8demo (1 / 10000000) 0) = none) ∧
    ((augment_intersections C8demo (1 / 10000000)).getD 0 default).polygon
        = (C8demo.getD 0 default).polygon ∧
    ((augment_intersections C8demo (1 / 10000000)).getD 0 default).ring
        = newRingOf C8demo (1 / 10000000) 0 :=
  ⟨⟨by decide, by decide⟩,
    C8_empty_reconstruction C8demo (1 / 10000000) 0 (by decide) (by decide)⟩

/-- C8 (counterexample): for a degenerate item whose reconstruction yields
an empty polygon, `augment_intersections` does not fail with a descriptive
condition and does not leave the item's prior state intact: it returns
normally and the item's ring is changed from its prior value (while the
polygon is left unchanged) — refuting “fails with a descriptive condition
and the item's prior state (its polygon and its ring) is left intact”. -/
theorem C8_counterexample :
    coords_to_polygon (newRingOf C8demo (1 / 10000000) 0) = none ∧
    ((augment_intersections C8demo (1 / 10000000)).getD 0 default).ring
        ≠ (C8demo.getD 0 default).ring ∧
    ((augment_intersections C8demo (1 / 10000000)).getD 0 default).polygon
        = (C8demo.getD 0 default).polygon := by
  refine ⟨by decide, by decide, by decide⟩

-- ======================= numbering lemmas =======================

theorem getD_append_left (l t : List Point) (n : ℕ) (h : n < l.length) :
    (l ++ t).getD n pdfl = l.getD n pdfl :=
  List.getD_append l t pdfl n h

theorem getD_concat (l : List Point) (x : Point) :
    (l ++ [x]).getD l.length pdfl = x := by
  rw [List.getD_append_right l [x] pdfl l.length (le_refl _), Nat.sub_self]
  rfl

theorem RegInv_init : RegInv { id_map := fun _ => none, tbl := [], gid := 1 } := by
  refine ⟨rfl, ?_, ?_⟩
  · intro k j h
    cases h
  · intro k k2 j h
    cases h

theorem RegInv_push (s : RegState) (key : Point) (hs : RegInv s) :
    RegInv { id_map := fun k => if k = key then some s.gid else s.id_map k
             tbl := s.tbl ++ [key]
             gid := s.gid + 1 } := by
  obtain ⟨hgid, hent, hinj⟩ := hs
  refine ⟨?_, ?_, ?_⟩
  · simp only [List.length_append, List.length_cons, List.length_nil, hgid]
  · intro k j h
    simp only at h
    by_cases hk : k = key
    · rw [if_pos hk] at h
      have hj : j = s.gid := by
        injection h with h2
        exact h2.symm
      subst hj
      refine ⟨by omega, ?_, ?_⟩
      · simp only [List.length_append, List.length_cons, List.length_nil, hgid]
        omega
      · rw [hgid, Nat.add_sub_cancel, getD_concat]
        exact hk.symm
    · rw [if_neg hk] at h
      obtain ⟨h1, h2, h3⟩ := hent k j h
      refine ⟨h1, ?_, ?_⟩
      · simp only [List.length_append, List.length_cons, List.length_nil]
        omega
      · rw [getD_append_left _ _ _ h2]
        exact h3
  · intro k k2 j h h2
    simp only at h h2
    by_cases hk : k = key <;> by_cases hk2 : k2 = key
    · rw [hk, hk2]
    · rw [if_pos hk] at h
      rw [if_neg hk2] at h2
      have hj : j = s.gid := by injection h with h3; exact h3.symm
      obtain ⟨-, hb, -⟩ := hent k2 j h2
      rw [hj, hgid] at hb
      omega
    · rw [if_neg hk] at h
      rw [if_pos hk2] at h2
      have hj : j = s.gid := by injection h2 with h3; exact h3.symm
      obtain ⟨-, hb, -⟩ := hent k j h
      rw [hj, hgid] at hb
      omega
    · rw [if_neg hk] at h
      rw [if_neg hk2] at h2
      exact hinj k k2 j h h2

theorem pass1_tbl (d : ℕ) :
    ∀ (l : List Point) (s : RegState),
      (pass1 d l s).tbl = s.tbl ++ l.map (fun q => roundPt d q) := by
  intro l
  induction l with
  | nil => intro s; simp [pass1]
  | cons q rest ih =>
    intro s
    show (pass1 d rest _).tbl = _
    rw [ih]
    simp

theorem pass1_inv (d : ℕ) :
    ∀ (l : List Point) (s : RegState), RegInv s → RegInv (pass1 d l s) := by
  intro l
  induction l with
  | nil => intro s hs; exact hs
  | cons q rest ih =>
    intro s hs
    exact ih _ (RegInv_push s (roundPt d q) hs)

theorem lookupId_spec (s : RegState) (k : Point) (hs : RegInv s) :
    RegInv (lookupId s k).2 ∧
    (lookupId s k).2.id_map k = some (lookupId s k).1 ∧
    (∃ ext, (lookupId s k).2.tbl = s.tbl ++ ext) ∧
    (∀ k0 j, s.id_map k0 = some j → (lookupId s k).2.id_map k0 = some j) := by
  unfold lookupId
  cases hm : s.id_map k with
  | some pid =>
    exact ⟨hs, hm, ⟨[], by simp⟩, fun k0 j h => h⟩
  | none =>
    refine ⟨RegInv_push s k hs, ?_, ⟨[k], rfl⟩, ?_⟩
    · simp
    · intro k0 j h
      simp only
      rw [if_neg ?_]
      · exact h
      · intro he
        rw [he, hm] at h
        cases h

theorem assignPts_spec (d : ℕ) :
    ∀ (pts : List Point) (s : RegState), RegInv s →
      RegInv (assignPts d s pts).2 ∧
      (∃ ext, (assignPts d s pts).2.tbl = s.tbl ++ ext) ∧
      (∀ k0 j, s.id_map k0 = some j → (assignPts d s pts).2.id_map k0 = some j) ∧
      (assignPts d s pts).1.length = pts.length ∧
      (∀ i, i < pts.length →
        (assignPts d s pts).2.id_map (roundPt d (pts.getD i pdfl))
          = some ((assignPts d s pts).1.getD i 0)) := by
  intro pts
  induction pts with
  | nil =>
    intro s hs
    exact ⟨hs, ⟨[], by simp [assignPts]⟩, fun k0 j h => h, rfl, fun i hi => by cases hi⟩
  | cons p rest ih =>
    intro s hs
    obtain ⟨hinv1, hmap1, hext1, hmono1⟩ := lookupId_spec s (roundPt d p) hs
    obtain ⟨hinv2, hext2, hmono2, hlen2, hvert2⟩ := ih (lookupId s (roundPt d p)).2 hinv1
    refine ⟨hinv2, ?_, ?_, ?_, ?_⟩
    · obtain ⟨e1, he1⟩ := hext1
      obtain ⟨e2, he2⟩ := hext2
      exact ⟨e1 ++ e2, by
        show (assignPts d (lookupId s (roundPt d p)).2 rest).2.tbl = _
        rw [he2, he1, List.append_assoc]⟩
    · intro k0 j h
      exact hmono2 k0 j (hmono1 k0 j h)
    · show ((lookupId s (roundPt d p)).1 :: (assignPts d _ rest).1).length = _
      simp [hlen2]
    · intro i hi
      cases i with
      | zero =>
        show (assignPts d (lookupId s (roundPt d p)).2 rest).2.id_map (roundPt d p)
          = some (lookupId s (roundPt d p)).1
        exact hmono2 _ _ hmap1
      | succ i =>
        have hi2 : i < rest.length := by simpa using hi
        exact hvert2 i hi2

theorem assignItems_spec (d : ℕ) :
    ∀ (polys : List PolyItem) (s : RegState), RegInv s →
      RegInv (assignItems d s polys).2 ∧
      (∃ ext, (assignItems d s polys).2.tbl = s.tbl ++ ext) ∧
      (∀ k0 j, s.id_map k0 = some j → (assignItems d s polys).2.id_map k0 = some j) ∧
      (assignItems d s polys).1.length = polys.length ∧
      (∀ t, t < polys.length →
        ((assignItems d s polys).1.getD t default).polygon
            = (polys.getD t default).polygon ∧
        ((assignItems d s polys).1.getD t default).ring
            = ring_coords (polys.getD t default).polygon ∧
        ((assignItems d s polys).1.getD t default).point_ids.length
            = ((ring_coords (polys.getD t default).polygon).dropLast).length ∧
        (∀ i, i < ((ring_coords (polys.getD t default).polygon).dropLast).length →
          (assignItems d s polys).2.id_map
              (roundPt d (((ring_coords (polys.getD t default).polygon).dropLast).getD i pdfl))
            = some (((assignItems d s polys).1.getD t default).point_ids.getD i 0))) := by
  intro polys
  induction polys with
  | nil =>
    intro s hs
    exact ⟨hs, ⟨[], by simp [assignItems]⟩, fun k0 j h => h, rfl, fun t ht => by cases ht⟩
  | cons it rest ih =>
    intro s hs
    obtain ⟨hinv1, hext1, hmono1, hlen1, hvert1⟩ :=
      assignPts_spec d (ring_coords it.polygon).dropLast s hs
    obtain ⟨hinv2, hext2, hmono2, hlen2, hitem2⟩ :=
      ih (assignPts d s (ring_coords it.polygon).dropLast).2 hinv1
    refine ⟨hinv2, ?_, ?_, ?_, ?_⟩
    · obtain ⟨e1, he1⟩ := hext1
      obtain ⟨e2, he2⟩ := hext2
      exact ⟨e1 ++ e2, by
        show (assignItems d (assignPts d s _).2 rest).2.tbl = _
        rw [he2, he1, List.append_assoc]⟩
    · intro k0 j h
      exact hmono2 k0 j (hmono1 k0 j h)
    · show (_ :: (assignItems d _ rest).1).length = _
      simp [hlen2]
    · intro t ht
      cases t with
      | zero =>
        refine ⟨rfl, rfl, hlen1, ?_⟩
        intro i hi
        exact hmono2 _ _ (hvert1 i hi)
      | succ t =>
        have ht2 : t < rest.length := by simpa using ht
        exact hitem2 t ht2

theorem addBucket_nil_eq (k p : Point) : addBucket [] k p = [(k, [p])] := rfl

theorem addBucket_cons_eq (k2 : Point) (l : List Point)
    (rest : List (Point × List Point)) (k p : Point) :
    addBucket ((k2, l) :: rest) k p
      = if k2 = k then (k2, l ++ [p]) :: rest else (k2, l) :: addBucket rest k p := rfl

theorem pyRound_intCast (z : ℤ) : pyRound (z : ℚ) = z := by
  unfold pyRound
  simp only [Int.floor_intCast, sub_self]
  norm_num

theorem roundQ_grid (d : ℕ) (x : ℚ) : roundQ d (roundQ d x) = roundQ d x := by
  unfold roundQ
  have h10 : ((10 : ℚ) ^ d) ≠ 0 := by positivity
  rw [div_mul_cancel₀ _ h10, pyRound_intCast]

theorem roundPt_idem (d : ℕ) (p : Point) : roundPt d (roundPt d p) = roundPt d p := by
  unfold roundPt
  rw [roundQ_grid, roundQ_grid]

theorem addBucket_keys (bs : List (Point × List Point)) (k p : Point) :
    (addBucket bs k p).map (fun b => b.1)
      = if k ∈ bs.map (fun b => b.1) then bs.map (fun b => b.1)
        else bs.map (fun b => b.1) ++ [k] := by
  induction bs with
  | nil => simp [addBucket]
  | cons b rest ih =>
    obtain ⟨k2, l⟩ := b
    rw [addBucket_cons_eq]
    by_cases hk : k2 = k
    · rw [if_pos hk]
      simp [hk]
    · rw [if_neg hk]
      simp only [List.map_cons, ih, List.mem_cons]
      by_cases hmem : k ∈ rest.map (fun b => b.1)
      · rw [if_pos hmem, if_pos (Or.inr hmem)]
      · rw [if_neg hmem, if_neg ?_]
        · rfl
        · rintro (h | h)
          · exact hk h.symm
          · exact hmem h

theorem buckets_keys (d : ℕ) (pts : List Point) :
    (buckets d pts).map (fun b => b.1) = firstSeenKeys (pts.map (roundPt d)) := by
  unfold buckets firstSeenKeys
  suffices h : ∀ (l : List Point) (bs : List (Point × List Point)),
      (l.foldl (fun bs p => addBucket bs (roundPt d p) p) bs).map (fun b => b.1)
        = (l.map (roundPt d)).foldl
            (fun acc k => if k ∈ acc then acc else acc ++ [k]) (bs.map (fun b => b.1)) by
    exact h pts []
  intro l
  induction l with
  | nil => intro bs; rfl
  | cons p rest ih =>
    intro bs
    show ((rest.foldl _ (addBucket bs (roundPt d p) p)).map _) = _
    rw [ih, addBucket_keys]
    rfl

theorem addBucket_key_mem (bs : List (Point × List Point)) (k p : Point) :
    ∀ b ∈ addBucket bs k p, (∃ b0 ∈ bs, b.1 = b0.1) ∨ b.1 = k := by
  induction bs with
  | nil =>
    intro b hb
    rw [addBucket_nil_eq, List.mem_singleton] at hb
    subst hb
    exact Or.inr rfl
  | cons b0 rest ih =>
    obtain ⟨k2, l⟩ := b0
    intro b hb
    rw [addBucket_cons_eq] at hb
    by_cases hk : k2 = k
    · rw [if_pos hk, List.mem_cons] at hb
      rcases hb with hb1 | hb2
      · subst hb1
        exact Or.inl ⟨(k2, l), List.mem_cons_self _ _, rfl⟩
      · exact Or.inl ⟨b, List.mem_cons_of_mem _ hb2, rfl⟩
    · rw [if_neg hk, List.mem_cons] at hb
      rcases hb with hb1 | hb2
      · subst hb1
        exact Or.inl ⟨(k2, l), List.mem_cons_self _ _, rfl⟩
      · rcases ih b hb2 with ⟨b1, hb1, he⟩ | he
        · exact Or.inl ⟨b1, List.mem_cons_of_mem _ hb1, he⟩
        · exact Or.inr he

theorem buckets_key_grid (d : ℕ) (pts : List Point) :
    ∀ b ∈ buckets d pts, ∃ p, b.1 = roundPt d p := by
  unfold buckets
  suffices h : ∀ (l : List Point) (bs : List (Point × List Point)),
      (∀ b ∈ bs, ∃ p, b.1 = roundPt d p) →
      ∀ b ∈ l.foldl (fun bs p => addBucket bs (roundPt d p) p) bs,
        ∃ p, b.1 = roundPt d p by
    intro b hb
    exact h pts [] (fun b hb => by cases hb) b hb
  intro l
  induction l with
  | nil => intro bs hbs b hb; exact hbs b hb
  | cons p rest ih =>
    intro bs hbs b hb
    refine ih (addBucket bs (roundPt d p) p) ?_ b hb
    intro b2 hb2
    rcases addBucket_key_mem bs (roundPt d p) p b2 hb2 with ⟨b0, hb0, he⟩ | he
    · rcases hbs b0 hb0 with ⟨q, hq⟩
      exact ⟨q, he.trans hq⟩
    · exact ⟨p, he⟩

theorem uniq_grid (d : ℕ) (pts : List Point) :
    ∀ q ∈ unique_points_by_decimals pts d, roundPt d q = q := by
  intro q hq
  unfold unique_points_by_decimals at hq
  rcases List.mem_map.1 hq with ⟨b, hb, rfl⟩
  unfold bucketCanonical
  split
  · rcases buckets_key_grid d pts b hb with ⟨p, hp⟩
    rw [hp, roundPt_idem]
  · show roundPt d (roundQ d _, roundQ d _) = _
    unfold roundPt
    simp only
    rw [roundQ_grid, roundQ_grid]

theorem uniq_map_round (d : ℕ) (pts : List Point) :
    (unique_points_by_decimals pts d).map (roundPt d)
      = unique_points_by_decimals pts d := by
  have h : ∀ l : List Point, (∀ q ∈ l, roundPt d q = q) → l.map (roundPt d) = l := by
    intro l
    induction l with
    | nil => intro h; rfl
    | cons x xs ih =>
      intro h
      rw [List.map_cons, h x (List.mem_cons_self _ _),
        ih (fun q hq => h q (List.mem_cons_of_mem _ hq))]
  exact h _ (uniq_grid d pts)

-- ======================= claims C5 and C4 =======================

/-- C5: `assign_global_vertex_numbers` assigns ids as consecutive integers
starting at 1 in first-seen order of rounded keys during the fixed scan of
all items' rings (excluding each ring's closing duplicate): the bucket keys
are in first-seen order; the returned `id_to_point` table begins with the
canonical coordinates in that order, so its entry at index `k` is the
canonical coordinate for id `k + 1`; and every item's `point_ids` is
parallel to its ring excluding the closing duplicate — same length, and the
id at position `i` resolves through `id_to_point` to the rounded coordinate
of ring vertex `i`. -/
theorem C5_numbering (polys : List PolyItem) (d : ℕ) :
    ((buckets d ((polys.map (fun p => (ring_coords p.polygon).dropLast)).flatten)).map
          (fun b => b.1)
        = firstSeenKeys
            (((polys.map (fun p => (ring_coords p.polygon).dropLast)).flatten).map
              (roundPt d))) ∧
    (assign_global_vertex_numbers polys d).2.take
        (unique_points_by_decimals
          ((polys.map (fun p => (ring_coords p.polygon).dropLast)).flatten) d).length
      = unique_points_by_decimals
          ((polys.map (fun p => (ring_coords p.polygon).dropLast)).flatten) d ∧
    (assign_global_vertex_numbers polys d).1.length = polys.length ∧
    ∀ t, t < polys.length →
      ((assign_global_vertex_numbers polys d).1.getD t default).ring
          = ring_coords (polys.getD t default).polygon ∧
      ((assign_global_vertex_numbers polys d).1.getD t default).point_ids.length
          = ((ring_coords (polys.getD t default).polygon).dropLast).length ∧
      ∀ i, i < ((ring_coords (polys.getD t default).polygon).dropLast).length →
        1 ≤ ((assign_global_vertex_numbers polys d).1.getD t default).point_ids.getD i 0 ∧
        ((assign_global_vertex_numbers polys d).1.getD t default).point_ids.getD i 0 - 1
            < (assign_global_vertex_numbers polys d).2.length ∧
        (assign_global_vertex_numbers polys d).2.getD
            (((assign_global_vertex_numbers polys d).1.getD t default).point_ids.getD i 0
              - 1) pdfl
          = roundPt d
              (((ring_coords (polys.getD t default).polygon).dropLast).getD i pdfl) := by
  have hres1 : (assign_global_vertex_numbers polys d).1
      = (assignItems d
          (pass1 d
            (unique_points_by_decimals
              ((polys.map (fun p => (ring_coords p.polygon).dropLast)).flatten) d)
            { id_map := fun _ => none, tbl := [], gid := 1 }) polys).1 := rfl
  have hres2 : (assign_global_vertex_numbers polys d).2
      = (assignItems d
          (pass1 d
            (unique_points_by_decimals
              ((polys.map (fun p => (ring_coords p.polygon).dropLast)).flatten) d)
            { id_map := fun _ => none, tbl := [], gid := 1 }) polys).2.tbl := rfl
  have hInv1 : RegInv (pass1 d
      (unique_points_by_decimals
        ((polys.map (fun p => (ring_coords p.polygon).dropLast)).flatten) d)
      { id_map := fun _ => none, tbl := [], gid := 1 }) :=
    pass1_inv d _ _ RegInv_init
  have htbl1 : (pass1 d
      (unique_points_by_decimals
        ((polys.map (fun p => (ring_coords p.polygon).dropLast)).flatten) d)
      { id_map := fun _ => none, tbl := [], gid := 1 }).tbl
      = unique_points_by_decimals
          ((polys.map (fun p => (ring_coords p.polygon).dropLast)).flatten) d := by
    rw [pass1_tbl]
    show [] ++ _ = _
    rw [List.nil_append, uniq_map_round]
  obtain ⟨hInv2, ⟨ext, hext⟩, hmono, hlen, hitem⟩ := assignItems_spec d polys _ hInv1
  refine ⟨buckets_keys d _, ?_, ?_, ?_⟩
  · rw [hres2, hext, htbl1, List.take_left]
  · rw [hres1]
    exact hlen
  · intro t ht
    obtain ⟨hpoly, hring, hlen2, hvert⟩ := hitem t ht
    refine ⟨by rw [hres1]; exact hring, by rw [hres1]; exact hlen2, ?_⟩
    intro i hi
    have hv := hvert i hi
    obtain ⟨h1, h2, h3⟩ := hInv2.2.1 _ _ hv
    rw [hres1, hres2]
    exact ⟨h1, h2, h3⟩

theorem C5_numbering_witness :
    ((assign_global_vertex_numbers C4demo 3).1.getD 0 default).ring
        = ring_coords (C4demo.getD 0 default).polygon ∧
    1 ≤ ((assign_global_vertex_numbers C4demo 3).1.getD 0 default).point_ids.getD 0 0 ∧
    (assign_global_vertex_numbers C4demo 3).2.getD
        (((assign_global_vertex_numbers C4demo 3).1.getD 0 default).point_ids.getD 0 0
          - 1) pdfl
      = roundPt 3 (((ring_coords (C4demo.getD 0 default).polygon).dropLast).getD 0 pdfl) := by
  obtain ⟨-, -, -, hitem⟩ := C5_numbering C4demo 3
  obtain ⟨hr, hl, hv⟩ := hitem 0 (by decide)
  obtain ⟨h1, h2, h3⟩ := hv 0 (by decide)
  exact ⟨hr, h1, h3⟩

/-- C4 (amended): after `assign_global_vertex_numbers`, the vertex-to-id
assignment is injective with respect to the rounded keys: two ring vertices
receive the same global id if and only if their coordinates agree after
rounding to the configured precision.  (Two raw coordinates merely within
the rounding tolerance of each other may round to different keys and then
receive different ids; see the counterexample.) -/
theorem C4_id_iff_key (polys : List PolyItem) (d : ℕ) (t1 i1 t2 i2 : ℕ)
    (ht1 : t1 < polys.length)
    (hi1 : i1 < ((ring_coords (polys.getD t1 default).polygon).dropLast).length)
    (ht2 : t2 < polys.length)
    (hi2 : i2 < ((ring_coords (polys.getD t2 default).polygon).dropLast).length) :
    ((assign_global_vertex_numbers polys d).1.getD t1 default).point_ids.getD i1 0
        = ((assign_global_vertex_numbers polys d).1.getD t2 default).point_ids.getD i2 0
      ↔ roundPt d (((ring_coords (polys.getD t1 default).polygon).dropLast).getD i1 pdfl)
          = roundPt d
              (((ring_coords (polys.getD t2 default).polygon).dropLast).getD i2 pdfl) := by
  have hres1 : (assign_global_vertex_numbers polys d).1
      = (assignItems d
          (pass1 d
            (unique_points_by_decimals
              ((polys.map (fun p => (ring_coords p.polygon).dropLast)).flatten) d)
            { id_map := fun _ => none, tbl := [], gid := 1 }) polys).1 := rfl
  have hInv1 : RegInv (pass1 d
      (unique_points_by_decimals
        ((polys.map (fun p => (ring_coords p.polygon).dropLast)).flatten) d)
      { id_map := fun _ => none, tbl := [], gid := 1 }) :=
    pass1_inv d _ _ RegInv_init
  obtain ⟨hInv2, -, hmono, hlen, hitem⟩ := assignItems_spec d polys _ hInv1
  have hv1 := (hitem t1 ht1).2.2.2 i1 hi1
  have hv2 := (hitem t2 ht2).2.2.2 i2 hi2
  rw [hres1]
  constructor
  · intro he
    refine hInv2.2.2 _ _ _ hv1 ?_
    rw [he]
    exact hv2
  · intro he
    rw [he] at hv1
    exact Option.some_inj.1 (hv1.symm.trans hv2)

theorem C4_id_iff_key_witness :
    (((assign_global_vertex_numbers C4demo 3).1.getD 0 default).point_ids.getD 0 0
        = ((assign_global_vertex_numbers C4demo 3).1.getD 0 default).point_ids.getD 1 0
      ↔ roundPt 3 (((ring_coords (C4demo.getD 0 default).polygon).dropLast).getD 0 pdfl)
          = roundPt 3
              (((ring_coords (C4demo.getD 0 default).polygon).dropLast).getD 1 pdfl)) :=
  C4_id_iff_key C4demo 3 0 0 0 1 (by decide) (by decide) (by decide) (by decide)

/-- C4 (counterexample): the two first vertices of `C4demo`'s triangle are
within the rounding tolerance `1e-3` of each other (their distance is
`2e-4`), yet they receive different global ids, because they round to the
keys `(0, 0)` and `(0.001, 0)` — refuting “any two raw input coordinates
within that tolerance of each other always receive the same single id”. -/
theorem C4_counterexample :
    hyp2 ((4 / 10000 : ℚ), (0 : ℚ)) (6 / 10000, 0) ≤ (1 / 10 ^ SNAP_DECIMALS) ^ 2 ∧
    ((assign_global_vertex_numbers C4demo SNAP_DECIMALS).1.getD 0
        default).point_ids.getD 0 0
      ≠ ((assign_global_vertex_numbers C4demo SNAP_DECIMALS).1.getD 0
          default).point_ids.getD 1 0 := by
  exact ⟨by decide, by decide⟩

-- ======================= claim C9 =======================

theorem assignItems_cons (d : ℕ) (s : RegState) (it : PolyItem) (rest : List PolyItem) :
    assignItems d s (it :: rest)
      = ({ it with ring := ring_coords it.polygon
                   point_ids := (assignPts d s (ring_coords it.polygon).dropLast).1 }
          :: (assignItems d (assignPts d s (ring_coords it.polygon).dropLast).2 rest).1,
         (assignItems d (assignPts d s (ring_coords it.polygon).dropLast).2 rest).2) := rfl

theorem assignItems_idem (d : ℕ) :
    ∀ (polys : List PolyItem) (s : RegState),
      assignItems d s ((assignItems d s polys).1) = assignItems d s polys := by
  intro polys
  induction polys with
  | nil => intro s; rfl
  | cons it rest ih =>
    intro s
    rw [assignItems_cons d s it rest]
    show assignItems d s (_ :: _) = _
    rw [assignItems_cons]
    dsimp only
    rw [ih ((assignPts d s (ring_coords it.polygon).dropLast).2)]

theorem assignItems_polygons (d : ℕ) :
    ∀ (polys : List PolyItem) (s : RegState),
      ((assignItems d s polys).1).map (fun it => it.polygon)
        = polys.map (fun it => it.polygon) := by
  intro polys
  induction polys with
  | nil => intro s; rfl
  | cons it rest ih =>
    intro s
    rw [assignItems_cons]
    dsimp only
    rw [List.map_cons, List.map_cons, ih]

/-- C9 (amended): re-running `assign_global_vertex_numbers` on an
already-numbered collection is idempotent — it reproduces exactly the same
items (rings and ids) and the same `id_to_point` table.  (Re-running
`augment_intersections`, by contrast, can insert further points: see the
counterexample.) -/
theorem C9_numbering_idempotent (polys : List PolyItem) (d : ℕ) :
    assign_global_vertex_numbers ((assign_global_vertex_numbers polys d).1) d
      = assign_global_vertex_numbers polys d := by
  have hA : ((((assignItems d
        (pass1 d
          (unique_points_by_decimals
            ((polys.map (fun p => (ring_coords p.polygon).dropLast)).flatten) d)
          { id_map := fun _ => none, tbl := [], gid := 1 }) polys).1).map
          (fun p => (ring_coords p.polygon).dropLast)).flatten)
      = ((polys.map (fun p => (ring_coords p.polygon).dropLast)).flatten) := by
    have h1 : ∀ l : List PolyItem,
        l.map (fun p => (ring_coords p.polygon).dropLast)
          = (l.map (fun p => p.polygon)).map (fun poly => (ring_coords poly).dropLast) := by
      intro l
      rw [List.map_map]
      rfl
    rw [h1, h1, assignItems_polygons]
  show ((assignItems d
      (pass1 d
        (unique_points_by_decimals
          (((((assignItems d
            (pass1 d
              (unique_points_by_decimals
                ((polys.map (fun p => (ring_coords p.polygon).dropLast)).flatten) d)
              { id_map := fun _ => none, tbl := [], gid := 1 }) polys).1).map
              (fun p => (ring_coords p.polygon).dropLast)).flatten)) d)
        { id_map := fun _ => none, tbl := [], gid := 1 })
      ((assignItems d
        (pass1 d
          (unique_points_by_decimals
            ((polys.map (fun p => (ring_coords p.polygon).dropLast)).flatten) d)
          { id_map := fun _ => none, tbl := [], gid := 1 }) polys).1)).1,
    (assignItems d
      (pass1 d
        (unique_points_by_decimals
          (((((assignItems d
            (pass1 d
              (unique_points_by_decimals
                ((polys.map (fun p => (ring_coords p.polygon).dropLast)).flatten) d)
              { id_map := fun _ => none, tbl := [], gid := 1 }) polys).1).map
              (fun p => (ring_coords p.polygon).dropLast)).flatten)) d)
        { id_map := fun _ => none, tbl := [], gid := 1 })
      ((assignItems d
        (pass1 d
          (unique_points_by_decimals
            ((polys.map (fun p => (ring_coords p.polygon).dropLast)).flatten) d)
          { id_map := fun _ => none, tbl := [], gid := 1 }) polys).1)).2.tbl)
    = _
  rw [hA, assignItems_idem]
  rfl

set_option maxRecDepth 3000 in
theorem c9_run1 : augment_intersections C9items C9tol = C9run1 := by decide

set_option maxRecDepth 3000 in
theorem c9_n1 : (assign_global_vertex_numbers C9run1 SNAP_DECIMALS).1 = C9n1 := by
  decide

set_option maxRecDepth 3000 in
theorem c9_s1 : pairEdges C9rings C9tol emptyInserts 0 1 = C9L1 := by decide

set_option maxRecDepth 3000 in
theorem c9_s2 : pairEdges C9rings C9tol C9L1 0 2 = C9L2 := by decide

set_option maxRecDepth 3000 in
theorem c9_s3 : pairEdges C9rings C9tol C9L2 0 3 = C9L3 := by decide

set_option maxRecDepth 3000 in
theorem c9_s4 : pairEdges C9rings C9tol C9L3 1 2 = C9L4 := by decide

set_option maxRecDepth 3000 in
theorem c9_s5 : pairEdges C9rings C9tol C9L4 1 3 = C9L5 := by decide

set_option maxRecDepth 3000 in
theorem c9_s6 : pairEdges C9rings C9tol C9L5 2 3 = C9L6 := by decide

theorem c9_ringsOf : ringsOf C9n1 = C9rings := by decide

theorem allInserts_four (items : List PolyItem) (tol : ℚ) (h : items.length = 4) :
    allInserts items tol
      = pairEdges (ringsOf items) tol
          (pairEdges (ringsOf items) tol
            (pairEdges (ringsOf items) tol
              (pairEdges (ringsOf items) tol
                (pairEdges (ringsOf items) tol
                  (pairEdges (ringsOf items) tol emptyInserts 0 1) 0 2) 0 3) 1 2) 1 3)
          2 3 := by
  unfold allInserts
  rw [h]
  rfl

theorem c9_all : allInserts C9n1 C9tol = C9L6 := by
  rw [allInserts_four C9n1 C9tol (by rfl), c9_ringsOf, c9_s1, c9_s2, c9_s3, c9_s4,
    c9_s5, c9_s6]

set_option maxRecDepth 3000 in
theorem c9_run2 : augment_intersections C9n1 C9tol = C9run2 := by
  unfold augment_intersections
  rw [show C9n1.isEmpty = false from rfl]
  simp only [Bool.false_eq_true, if_false]
  rw [show C9n1.length = 4 from rfl, show List.range 4 = [0, 1, 2, 3] from rfl]
  simp only [List.map_cons, List.map_nil, augmentItem, newRingOf, c9_all]
  decide

set_option maxRecDepth 3000 in
theorem c9_n2 : (assign_global_vertex_numbers C9run2 SNAP_DECIMALS).1 = C9n2 := by
  decide

/-- C9 (counterexample): on the concrete collection `C9items`, running
`augment_intersections` followed by `assign_global_vertex_numbers` a second
time inserts further points into the first item's ring and produces a
different `point_ids` list — refuting the claim that a second run inserts
no further points and renumbers nothing.  (The first run merges the two
crossing points within epsilon of each other on the big triangle's edge
while the thin triangles keep their own exact crossing points, so the
second run re-detects a crossing farther than epsilon from the merged
vertex and inserts it.) -/
theorem C9_counterexample :
    ((assign_global_vertex_numbers
        (augment_intersections
          ((assign_global_vertex_numbers (augment_intersections C9items C9tol)
            SNAP_DECIMALS).1) C9tol) SNAP_DECIMALS).1.getD 0 default).ring
      ≠ ((assign_global_vertex_numbers (augment_intersections C9items C9tol)
          SNAP_DECIMALS).1.getD 0 default).ring ∧
    ((assign_global_vertex_numbers
        (augment_intersections
          ((assign_global_vertex_numbers (augment_intersections C9items C9tol)
            SNAP_DECIMALS).1) C9tol) SNAP_DECIMALS).1.getD 0 default).point_ids
      ≠ ((assign_global_vertex_numbers (augment_intersections C9items C9tol)
          SNAP_DECIMALS).1.getD 0 default).point_ids := by
  rw [c9_run1, c9_n1, c9_run2, c9_n2]
  exact ⟨by decide, by decide⟩
